import Mathlib

/-!
Verification of the ESP32-ModbusDevice driver core.

This file gives a shallow embedding of the transaction core of
`ModbusDevice` (the synchronous read/write operations over the shared bus
mutex), the device registry (`ModbusRegistry`), the lifecycle state machine
(`setInitPhase` / `setEventGroup`) and the queued asynchronous variant
(`QueuedModbusDevice`), and proves properties of the embedded code.

Modelling conventions:
- FreeRTOS primitives (mutexes, semaphores, queues, event groups) are
  modelled by explicit state plus oracle booleans describing the outcome of
  each blocking call (`TransEnv`).  A transaction run additionally records a
  trace of the externally visible steps it performs (`Event`), so ordering
  and lock-balance properties can be stated about it.
- The concurrent response/error callbacks (`handleData` / `handleError`)
  are folded into the outcome of the semaphore wait (`WaitOutcome`): a
  delivered response sets the received flag and copies the payload, a
  delivered error sets the error flag, the mapped error code and the
  device's last-error field (as `handleError` / `handleModbusError` do),
  and a timeout delivers nothing.
- Machine integers (`uint8_t`, `uint16_t`, `size_t`) are modelled as `Nat`;
  byte buffers as `List Nat`.  Null pointers are `Option.none`.
- The transport (`esp32ModbusRTU`) is opaque: a dispatch either succeeds or
  fails according to the oracle, and the marshalled payload bytes handed to
  it are not modelled further.
-/

/-- Lifecycle phase of a device (ModbusDevice.h, `enum class InitPhase`). -/
inductive InitPhase where
  | UNINITIALIZED
  | CONFIGURING
  | READY
  | ERROR
deriving DecidableEq, Repr

/-- Error codes (ModbusTypes.h, `enum class ModbusError`). -/
inductive ModbusError where
  | SUCCESS
  | ILLEGAL_FUNCTION
  | ILLEGAL_DATA_ADDRESS
  | ILLEGAL_DATA_VALUE
  | SLAVE_DEVICE_FAILURE
  | TIMEOUT
  | CRC_ERROR
  | INVALID_RESPONSE
  | QUEUE_FULL
  | NOT_INITIALIZED
  | COMMUNICATION_ERROR
  | INVALID_PARAMETER
  | RESOURCE_ERROR
  | NULL_POINTER
  | NOT_SUPPORTED
  | MUTEX_ERROR
  | INVALID_DATA_LENGTH
  | DEVICE_NOT_FOUND
  | RESOURCE_CREATION_FAILED
  | INVALID_ADDRESS
deriving DecidableEq, Repr

/-- Request priority tags of the transport API (EMERGENCY/SENSOR/RELAY/STATUS).
The priority is forwarded to the opaque transport and has no effect on the
device-side semantics modelled here. -/
inductive ModbusPriority where
  | EMERGENCY
  | SENSOR
  | RELAY
  | STATUS
deriving DecidableEq, Repr

/-- Return codes of the ESP-IDF style dispatch helpers (`esp_err_t` values
actually produced by `sendRequestWithPriority`). -/
inductive EspErr where
  | ok
  | fail
  | noMem
deriving DecidableEq, Repr

/-- Outcome of one semaphore wait in `waitForResponse`, abstracting what the
transport's callback did before the wait returned: a delivered (accepted)
response with its payload, a delivered error, or nothing before the timeout. -/
inductive WaitOutcome where
  | response (payload : List Nat)
  | errored (e : ModbusError)
  | timeout
deriving DecidableEq, Repr

/-- Externally visible steps of one synchronous transaction, recorded in
order: bus-mutex acquisition attempt (with its outcome), bus-mutex release,
invocation of the transport dispatch function (with its outcome), clearing of
the sync context's result flags, and the blocking semaphore wait. -/
inductive Event where
  | acquire (ok : Bool)
  | release
  | dispatch (ok : Bool)
  | clearFlags
  | semWait
deriving DecidableEq, Repr

/-- ModbusTypes.h: `MODBUS_MAX_SLAVE_ADDRESS`. -/
def MODBUS_MAX_SLAVE_ADDRESS : Nat := 247

/-- ModbusTypes.h: `MODBUS_MAX_REGISTER_COUNT` (FC 0x03/0x04 read limit). -/
def MODBUS_MAX_REGISTER_COUNT : Nat := 125

/-- ModbusTypes.h: `MODBUS_MAX_WRITE_REGISTER_COUNT` (FC 0x10 write limit). -/
def MODBUS_MAX_WRITE_REGISTER_COUNT : Nat := 123

/-- ModbusTypes.h: `MODBUS_MAX_COIL_COUNT` (FC 0x01/0x02 read limit). -/
def MODBUS_MAX_COIL_COUNT : Nat := 2000

/-- ModbusTypes.h: `MODBUS_MAX_WRITE_COIL_COUNT` (FC 0x0F write limit). -/
def MODBUS_MAX_WRITE_COIL_COUNT : Nat := 1968

/-- ModbusTypes.h: `MODBUS_MAX_READ_SIZE` (maximal RTU payload). -/
def MODBUS_MAX_READ_SIZE : Nat := 252

/-- Per-device synchronous wait state (ModbusDevice.h, `struct SyncContext`).
`semaphoreOk` models whether the binary semaphore was created. -/
structure SyncContext where
  responseData : List Nat
  responseReceived : Bool
  errorOccurred : Bool
  error : ModbusError
  semaphoreOk : Bool
deriving DecidableEq, Repr

/-- Device state: the fields of `class ModbusDevice` that the verified
operations read or write.  `selfId` stands for the device's `this` pointer
(nonzero for a live object), `syncMutexOk` for a successfully created
`syncMutex`, `eventGroup` for a non-null event-group handle. -/
structure DeviceState where
  selfId : Nat
  serverAddress : Nat
  initPhase : InitPhase
  lastError : ModbusError
  totalRequests : Nat
  successfulRequests : Nat
  timeouts : Nat
  crcErrors : Nat
  syncContext : Option SyncContext
  syncMutexOk : Bool
  eventGroup : Bool
  readyBit : Nat
  errorBit : Nat
deriving DecidableEq, Repr

/-- Constructor `ModbusDevice::ModbusDevice(uint8_t serverAddr)`: stores the
address, falling back to 1 when it is 0 or above `MODBUS_MAX_SLAVE_ADDRESS`;
everything else starts at its member-initializer default. -/
def mkModbusDevice (selfId serverAddr : Nat) : DeviceState :=
  { selfId := selfId
    serverAddress :=
      if serverAddr = 0 ∨ serverAddr > MODBUS_MAX_SLAVE_ADDRESS then 1 else serverAddr
    initPhase := InitPhase.UNINITIALIZED
    lastError := ModbusError.SUCCESS
    totalRequests := 0
    successfulRequests := 0
    timeouts := 0
    crcErrors := 0
    syncContext := none
    syncMutexOk := false
    eventGroup := false
    readyBit := 0
    errorBit := 0 }

/-- Accessor `ModbusDevice::getServerAddress`. -/
def getServerAddress (s : DeviceState) : Nat := s.serverAddress

/-- Oracle for the blocking/fallible steps of one synchronous transaction:
outcome of the bus-mutex take, presence of the RTU transport in the registry,
outcome of the transport dispatch call, heap allocation for the FC10/FC0F
marshalling buffers, creation of the lazily allocated sync semaphore and sync
mutex, and the outcome of the response wait. -/
structure TransEnv where
  busMutexOk : Bool
  rtuPresent : Bool
  dispatchOk : Bool
  heapOk : Bool
  semAllocOk : Bool
  syncMutexAllocOk : Bool
  waitOutcome : WaitOutcome
deriving DecidableEq, Repr

/-- `ModbusDevice::ensureSyncReady`: lazily create the sync context (with its
binary semaphore; on semaphore-creation failure the context is reset to null)
and the sync mutex. -/
def ensureSyncReady (s : DeviceState) (env : TransEnv) : DeviceState :=
  let s1 :=
    match s.syncContext with
    | none =>
        if env.semAllocOk then
          let freshCtx : SyncContext :=
            { responseData := [], responseReceived := false,
              errorOccurred := false, error := ModbusError.SUCCESS,
              semaphoreOk := true }
          { s with syncContext := some freshCtx }
        else s
    | some _ => s
  if s1.syncMutexOk then s1
  else if env.syncMutexAllocOk then { s1 with syncMutexOk := true } else s1

/-- Switch body of `sendRequestWithPriority`: dispatch to the transport
according to the function code (read codes unconditionally; the single-write
codes when a data buffer exists; the multi-write codes when a data buffer
exists, the count is nonzero, and the marshalling buffer allocation
succeeds), yielding the `esp_err_t` result and the dispatch event, if any. -/
def sendStep (env : TransEnv) (fc count : Nat)
    (data : Option (List Nat)) : EspErr × List Event :=
  if fc = 0x03 ∨ fc = 0x04 ∨ fc = 0x01 ∨ fc = 0x02 then
    ((if env.dispatchOk then EspErr.ok else EspErr.fail),
     [Event.dispatch env.dispatchOk])
  else if fc = 0x06 ∨ fc = 0x05 then
    match data with
    | some _ =>
        ((if env.dispatchOk then EspErr.ok else EspErr.fail),
         [Event.dispatch env.dispatchOk])
    | none => (EspErr.fail, [])
  else if fc = 0x10 ∨ fc = 0x0F then
    match data with
    | some _ =>
        if count > 0 then
          if env.heapOk then
            ((if env.dispatchOk then EspErr.ok else EspErr.fail),
             [Event.dispatch env.dispatchOk])
          else (EspErr.noMem, [])
        else (EspErr.fail, [])
    | none => (EspErr.fail, [])
  else (EspErr.fail, [])

/-- `ModbusDevice::sendRequestWithPriority`: look up the RTU transport (fail
without side effects when absent), run the dispatch switch (`sendStep`),
then increment `totalRequests` and record `COMMUNICATION_ERROR` in
`lastError` when the result is not `ESP_OK`.  The marshalled bytes handed to
the opaque transport are not modelled. -/
def sendRequestWithPriority (s : DeviceState) (env : TransEnv)
    (fc addr count : Nat) (priority : ModbusPriority)
    (data : Option (List Nat)) : EspErr × DeviceState × List Event :=
  if env.rtuPresent = false then
    (EspErr.fail, s, [])
  else
    let step := sendStep env fc count data
    let s1 := { s with totalRequests := s.totalRequests + 1 }
    let s2 :=
      if step.1 = EspErr.ok then s1
      else { s1 with lastError := ModbusError.COMMUNICATION_ERROR }
    (step.1, s2, step.2)

/-- `ModbusDevice::sendRequestInternal`: delegates with RELAY priority. -/
def sendRequestInternal (s : DeviceState) (env : TransEnv)
    (fc addr count : Nat) (data : Option (List Nat)) :
    EspErr × DeviceState × List Event :=
  sendRequestWithPriority s env fc addr count ModbusPriority.RELAY data

/-- `ModbusDevice::waitForResponse`: fail with `NOT_INITIALIZED` when the
sync context or its semaphore is missing; otherwise clear the previous
received/error flags and the response buffer, block on the semaphore, and
translate the outcome.  A delivered response increments
`successfulRequests`; a delivered error carries the mapped code and (via
`handleError` / `handleModbusError`, which run in the callback) sets
`lastError` and bumps `crcErrors` for CRC failures; a timeout increments
`timeouts` and sets `lastError := TIMEOUT`. -/
def waitForResponse (s : DeviceState) (w : WaitOutcome) :
    Except ModbusError (List Nat) × DeviceState × List Event :=
  match s.syncContext with
  | none => (Except.error ModbusError.NOT_INITIALIZED, s, [])
  | some ctx =>
    if ctx.semaphoreOk = false then
      (Except.error ModbusError.NOT_INITIALIZED, s, [])
    else
      let ctx1 := { ctx with responseReceived := false, errorOccurred := false,
                             responseData := [] }
      match w with
      | WaitOutcome.response payload =>
          let ctx2 := { ctx1 with responseReceived := true, responseData := payload }
          (Except.ok payload,
           { s with syncContext := some ctx2,
                    successfulRequests := s.successfulRequests + 1 },
           [Event.clearFlags, Event.semWait])
      | WaitOutcome.errored e =>
          let ctx2 := { ctx1 with errorOccurred := true, error := e }
          (Except.error e,
           { s with syncContext := some ctx2, lastError := e,
                    crcErrors := s.crcErrors +
                      (if e = ModbusError.CRC_ERROR then 1 else 0) },
           [Event.clearFlags, Event.semWait])
      | WaitOutcome.timeout =>
          (Except.error ModbusError.TIMEOUT,
           { s with syncContext := some ctx1,
                    timeouts := s.timeouts + 1,
                    lastError := ModbusError.TIMEOUT },
           [Event.clearFlags, Event.semWait])

/-- Payload decoding of the register reads: consecutive pairs
`(data[i] << 8) | data[i+1]` while `i + 1 < size`, step 2. -/
def decodeRegisters : List Nat → List Nat
  | a :: b :: rest => ((a <<< 8) ||| b) :: decodeRegisters rest
  | _ => []

/-- Payload decoding loop of the coil/discrete-input reads:
`for (i = 0; i < count && i / 8 < data.size(); i++)` pushing
`(data[i/8] & (1 << (i % 8))) != 0`.  `remaining` is `count - i`. -/
def decodeCoilsGo (data : List Nat) : Nat → Nat → List Bool
  | 0, _ => []
  | remaining + 1, i =>
      if i / 8 < data.length then
        (((data.getD (i / 8) 0) &&& (1 <<< (i % 8))) != 0)
          :: decodeCoilsGo data remaining (i + 1)
      else []

/-- Coil/discrete-input payload decoding, starting the loop at `i = 0`. -/
def decodeCoils (count : Nat) (data : List Nat) : List Bool :=
  decodeCoilsGo data count 0

/-- Bit packing of `writeMultipleCoils`: `packedData[i/16] |= 1 << (i%16)`
for every set input bit, over `(n + 15) / 16` words initialised to zero. -/
def packCoils (values : List Bool) : List Nat :=
  let wordCount := (values.length + 15) / 16
  (List.range values.length).foldl
    (fun packed i =>
      if values.getD i false then
        packed.set (i / 16) ((packed.getD (i / 16) 0) ||| (1 <<< (i % 16)))
      else packed)
    (List.replicate wordCount 0)

/-- `ModbusDevice::readHoldingRegistersWithPriority`: validate the count,
acquire the bus mutex, ensure sync resources, dispatch FC 0x03, wait for the
response, release the mutex on every exit path past acquisition, and decode
the payload into 16-bit values. -/
def readHoldingRegistersWithPriority (s : DeviceState) (env : TransEnv)
    (address count : Nat) (priority : ModbusPriority) :
    Except ModbusError (List Nat) × DeviceState × List Event :=
  if count = 0 ∨ count > MODBUS_MAX_REGISTER_COUNT then
    (Except.error ModbusError.INVALID_PARAMETER, s, [])
  else if env.busMutexOk = false then
    (Except.error ModbusError.MUTEX_ERROR, s, [Event.acquire false])
  else
    let s1 := ensureSyncReady s env
    let send := sendRequestWithPriority s1 env 0x03 address count priority none
    if send.1 ≠ EspErr.ok then
      (Except.error ModbusError.COMMUNICATION_ERROR, send.2.1,
       Event.acquire true :: send.2.2 ++ [Event.release])
    else
      let wait := waitForResponse send.2.1 env.waitOutcome
      ((match wait.1 with
        | Except.error e => Except.error e
        | Except.ok data => Except.ok (decodeRegisters data)),
       wait.2.1,
       Event.acquire true :: send.2.2 ++ wait.2.2 ++ [Event.release])

/-- `ModbusDevice::readHoldingRegisters`: RELAY-priority wrapper. -/
def readHoldingRegisters (s : DeviceState) (env : TransEnv)
    (address count : Nat) :
    Except ModbusError (List Nat) × DeviceState × List Event :=
  readHoldingRegistersWithPriority s env address count ModbusPriority.RELAY

/-- `ModbusDevice::readInputRegistersWithPriority`: same shape with FC 0x04. -/
def readInputRegistersWithPriority (s : DeviceState) (env : TransEnv)
    (address count : Nat) (priority : ModbusPriority) :
    Except ModbusError (List Nat) × DeviceState × List Event :=
  if count = 0 ∨ count > MODBUS_MAX_REGISTER_COUNT then
    (Except.error ModbusError.INVALID_PARAMETER, s, [])
  else if env.busMutexOk = false then
    (Except.error ModbusError.MUTEX_ERROR, s, [Event.acquire false])
  else
    let s1 := ensureSyncReady s env
    let send := sendRequestWithPriority s1 env 0x04 address count priority none
    if send.1 ≠ EspErr.ok then
      (Except.error ModbusError.COMMUNICATION_ERROR, send.2.1,
       Event.acquire true :: send.2.2 ++ [Event.release])
    else
      let wait := waitForResponse send.2.1 env.waitOutcome
      ((match wait.1 with
        | Except.error e => Except.error e
        | Except.ok data => Except.ok (decodeRegisters data)),
       wait.2.1,
       Event.acquire true :: send.2.2 ++ wait.2.2 ++ [Event.release])

/-- `ModbusDevice::readInputRegisters`: RELAY-priority wrapper. -/
def readInputRegisters (s : DeviceState) (env : TransEnv)
    (address count : Nat) :
    Except ModbusError (List Nat) × DeviceState × List Event :=
  readInputRegistersWithPriority s env address count ModbusPriority.RELAY

/-- `ModbusDevice::writeSingleRegisterWithPriority`: no count validation;
dispatches FC 0x06 with the value as its one-word buffer. -/
def writeSingleRegisterWithPriority (s : DeviceState) (env : TransEnv)
    (address value : Nat) (priority : ModbusPriority) :
    Except ModbusError Unit × DeviceState × List Event :=
  if env.busMutexOk = false then
    (Except.error ModbusError.MUTEX_ERROR, s, [Event.acquire false])
  else
    let s1 := ensureSyncReady s env
    let send := sendRequestWithPriority s1 env 0x06 address 1 priority (some [value])
    if send.1 ≠ EspErr.ok then
      (Except.error ModbusError.COMMUNICATION_ERROR, send.2.1,
       Event.acquire true :: send.2.2 ++ [Event.release])
    else
      let wait := waitForResponse send.2.1 env.waitOutcome
      ((match wait.1 with
        | Except.error e => Except.error e
        | Except.ok _ => Except.ok ()),
       wait.2.1,
       Event.acquire true :: send.2.2 ++ wait.2.2 ++ [Event.release])

/-- `ModbusDevice::writeSingleRegister`: RELAY-priority wrapper. -/
def writeSingleRegister (s : DeviceState) (env : TransEnv)
    (address value : Nat) :
    Except ModbusError Unit × DeviceState × List Event :=
  writeSingleRegisterWithPriority s env address value ModbusPriority.RELAY

/-- `ModbusDevice::writeMultipleRegisters`: validate the value list, then
dispatch FC 0x10 through `sendRequestInternal` with the list as data. -/
def writeMultipleRegisters (s : DeviceState) (env : TransEnv)
    (address : Nat) (values : List Nat) :
    Except ModbusError Unit × DeviceState × List Event :=
  if values = [] ∨ values.length > MODBUS_MAX_WRITE_REGISTER_COUNT then
    (Except.error ModbusError.INVALID_PARAMETER, s, [])
  else if env.busMutexOk = false then
    (Except.error ModbusError.MUTEX_ERROR, s, [Event.acquire false])
  else
    let s1 := ensureSyncReady s env
    let send := sendRequestInternal s1 env 0x10 address values.length (some values)
    if send.1 ≠ EspErr.ok then
      (Except.error ModbusError.COMMUNICATION_ERROR, send.2.1,
       Event.acquire true :: send.2.2 ++ [Event.release])
    else
      let wait := waitForResponse send.2.1 env.waitOutcome
      ((match wait.1 with
        | Except.error e => Except.error e
        | Except.ok _ => Except.ok ()),
       wait.2.1,
       Event.acquire true :: send.2.2 ++ wait.2.2 ++ [Event.release])

/-- `ModbusDevice::readCoils`: validate the count, dispatch FC 0x01 through
`sendRequestInternal`, and unpack the payload bits LSB-first. -/
def readCoils (s : DeviceState) (env : TransEnv)
    (address count : Nat) :
    Except ModbusError (List Bool) × DeviceState × List Event :=
  if count = 0 ∨ count > MODBUS_MAX_COIL_COUNT then
    (Except.error ModbusError.INVALID_PARAMETER, s, [])
  else if env.busMutexOk = false then
    (Except.error ModbusError.MUTEX_ERROR, s, [Event.acquire false])
  else
    let s1 := ensureSyncReady s env
    let send := sendRequestInternal s1 env 0x01 address count none
    if send.1 ≠ EspErr.ok then
      (Except.error ModbusError.COMMUNICATION_ERROR, send.2.1,
       Event.acquire true :: send.2.2 ++ [Event.release])
    else
      let wait := waitForResponse send.2.1 env.waitOutcome
      ((match wait.1 with
        | Except.error e => Except.error e
        | Except.ok data => Except.ok (decodeCoils count data)),
       wait.2.1,
       Event.acquire true :: send.2.2 ++ wait.2.2 ++ [Event.release])

/-- `ModbusDevice::readDiscreteInputs`: same shape with FC 0x02. -/
def readDiscreteInputs (s : DeviceState) (env : TransEnv)
    (address count : Nat) :
    Except ModbusError (List Bool) × DeviceState × List Event :=
  if count = 0 ∨ count > MODBUS_MAX_COIL_COUNT then
    (Except.error ModbusError.INVALID_PARAMETER, s, [])
  else if env.busMutexOk = false then
    (Except.error ModbusError.MUTEX_ERROR, s, [Event.acquire false])
  else
    let s1 := ensureSyncReady s env
    let send := sendRequestInternal s1 env 0x02 address count none
    if send.1 ≠ EspErr.ok then
      (Except.error ModbusError.COMMUNICATION_ERROR, send.2.1,
       Event.acquire true :: send.2.2 ++ [Event.release])
    else
      let wait := waitForResponse send.2.1 env.waitOutcome
      ((match wait.1 with
        | Except.error e => Except.error e
        | Except.ok data => Except.ok (decodeCoils count data)),
       wait.2.1,
       Event.acquire true :: send.2.2 ++ wait.2.2 ++ [Event.release])

/-- `ModbusDevice::writeSingleCoilWithPriority`: no count validation;
dispatches FC 0x05 with the coil value encoded as 1 or 0. -/
def writeSingleCoilWithPriority (s : DeviceState) (env : TransEnv)
    (address : Nat) (value : Bool) (priority : ModbusPriority) :
    Except ModbusError Unit × DeviceState × List Event :=
  if env.busMutexOk = false then
    (Except.error ModbusError.MUTEX_ERROR, s, [Event.acquire false])
  else
    let s1 := ensureSyncReady s env
    let send := sendRequestWithPriority s1 env 0x05 address 1 priority
      (some [if value then 1 else 0])
    if send.1 ≠ EspErr.ok then
      (Except.error ModbusError.COMMUNICATION_ERROR, send.2.1,
       Event.acquire true :: send.2.2 ++ [Event.release])
    else
      let wait := waitForResponse send.2.1 env.waitOutcome
      ((match wait.1 with
        | Except.error e => Except.error e
        | Except.ok _ => Except.ok ()),
       wait.2.1,
       Event.acquire true :: send.2.2 ++ wait.2.2 ++ [Event.release])

/-- `ModbusDevice::writeSingleCoil`: RELAY-priority wrapper. -/
def writeSingleCoil (s : DeviceState) (env : TransEnv)
    (address : Nat) (value : Bool) :
    Except ModbusError Unit × DeviceState × List Event :=
  writeSingleCoilWithPriority s env address value ModbusPriority.RELAY

/-- `ModbusDevice::writeMultipleCoils`: validate the value list, pack the
bools into 16-bit words, and dispatch FC 0x0F through `sendRequestInternal`
with the element count of the original list. -/
def writeMultipleCoils (s : DeviceState) (env : TransEnv)
    (address : Nat) (values : List Bool) :
    Except ModbusError Unit × DeviceState × List Event :=
  if values = [] ∨ values.length > MODBUS_MAX_WRITE_COIL_COUNT then
    (Except.error ModbusError.INVALID_PARAMETER, s, [])
  else if env.busMutexOk = false then
    (Except.error ModbusError.MUTEX_ERROR, s, [Event.acquire false])
  else
    let s1 := ensureSyncReady s env
    let send := sendRequestInternal s1 env 0x0F address values.length
      (some (packCoils values))
    if send.1 ≠ EspErr.ok then
      (Except.error ModbusError.COMMUNICATION_ERROR, send.2.1,
       Event.acquire true :: send.2.2 ++ [Event.release])
    else
      let wait := waitForResponse send.2.1 env.waitOutcome
      ((match wait.1 with
        | Except.error e => Except.error e
        | Except.ok _ => Except.ok ()),
       wait.2.1,
       Event.acquire true :: send.2.2 ++ wait.2.2 ++ [Event.release])

/-- Association-list find mirroring `std::map::find` on the registry's
`deviceMap_` (keys are bus addresses, values device pointers). -/
def mapFind : List (Nat × Nat) → Nat → Option Nat
  | [], _ => none
  | (k, v) :: rest, a => if k = a then some v else mapFind rest a

/-- Association-list update mirroring `deviceMap_[address] = device`:
replace the entry when the key is present, otherwise append it. -/
def mapInsert : List (Nat × Nat) → Nat → Nat → List (Nat × Nat)
  | [], a, d => [(a, d)]
  | (k, v) :: rest, a, d =>
      if k = a then (a, d) :: rest else (k, v) :: mapInsert rest a d

/-- Association-list erase mirroring `deviceMap_.erase(it)` after a
successful find: remove the (unique) entry with the given key. -/
def mapErase : List (Nat × Nat) → Nat → List (Nat × Nat)
  | [], _ => []
  | (k, v) :: rest, a => if k = a then rest else (k, v) :: mapErase rest a

/-- Registry state (ModbusRegistry.h/.cpp): the address → device-pointer map
and whether the internal map mutex was created.  Device pointers are `Nat`
with 0 standing for `nullptr`. -/
structure Registry where
  entries : List (Nat × Nat)
  mutexOk : Bool
deriving DecidableEq, Repr

/-- `ModbusRegistry::registerDevice`: reject a null device or an address
outside 1..247; fail when the registry mutex is missing or cannot be taken
(`lockOk`); otherwise overwrite-or-insert the mapping. -/
def ModbusRegistry.registerDevice (reg : Registry) (lockOk : Bool)
    (address device : Nat) : Bool × Registry :=
  if device = 0 ∨ address = 0 ∨ address > 247 then
    (false, reg)
  else if reg.mutexOk = false then
    (false, reg)
  else if lockOk = false then
    (false, reg)
  else
    (true, { reg with entries := mapInsert reg.entries address device })

/-- `ModbusRegistry::unregisterDevice`: fail when the mutex is missing or
cannot be taken; erase and report `true` when the address is found, report
`false` leaving the map untouched otherwise. -/
def ModbusRegistry.unregisterDevice (reg : Registry) (lockOk : Bool)
    (address : Nat) : Bool × Registry :=
  if reg.mutexOk = false then
    (false, reg)
  else if lockOk = false then
    (false, reg)
  else
    match mapFind reg.entries address with
    | some _ => (true, { reg with entries := mapErase reg.entries address })
    | none => (false, reg)

/-- `ModbusRegistry::getDevice`: null on a missing mutex or lock contention,
otherwise the mapped pointer (null when absent). -/
def ModbusRegistry.getDevice (reg : Registry) (lockOk : Bool)
    (address : Nat) : Nat :=
  if reg.mutexOk = false then 0
  else if lockOk = false then 0
  else (mapFind reg.entries address).getD 0

/-- `ModbusRegistry::getDeviceCount`: 0 on a missing mutex or lock
contention, otherwise the size of the map. -/
def ModbusRegistry.getDeviceCount (reg : Registry) (lockOk : Bool) : Nat :=
  if reg.mutexOk = false then 0
  else if lockOk = false then 0
  else reg.entries.length

/-- Member `ModbusDevice::registerDevice`: register `this` at the device's
current address, mapping failure to `MUTEX_ERROR`. -/
def ModbusDevice.registerDevice (s : DeviceState) (reg : Registry)
    (lockOk : Bool) : ModbusError × Registry :=
  let r := ModbusRegistry.registerDevice reg lockOk s.serverAddress s.selfId
  (if r.1 then ModbusError.SUCCESS else ModbusError.MUTEX_ERROR, r.2)

/-- Member `ModbusDevice::unregisterDevice`: unregister the device's current
address; always reports `SUCCESS`. -/
def ModbusDevice.unregisterDevice (s : DeviceState) (reg : Registry)
    (lockOk : Bool) : ModbusError × Registry :=
  (ModbusError.SUCCESS, (ModbusRegistry.unregisterDevice reg lockOk s.serverAddress).2)

/-- `ModbusDevice::setServerAddress`: reject 0 or > 247 with
`INVALID_ADDRESS` before any side effect; otherwise unregister the old
address, store the new one, and re-register when the device is READY
(propagating a registration failure). -/
def setServerAddress (s : DeviceState) (reg : Registry) (lockOk : Bool)
    (address : Nat) : Except ModbusError Unit × DeviceState × Registry :=
  if address = 0 ∨ address > MODBUS_MAX_SLAVE_ADDRESS then
    (Except.error ModbusError.INVALID_ADDRESS, s, reg)
  else
    let reg1 := (ModbusDevice.unregisterDevice s reg lockOk).2
    let s1 := { s with serverAddress := address }
    if s1.initPhase = InitPhase.READY then
      let r := ModbusDevice.registerDevice s1 reg1 lockOk
      if r.1 = ModbusError.SUCCESS then (Except.ok (), s1, r.2)
      else (Except.error r.1, s1, r.2)
    else
      (Except.ok (), s1, reg1)

/-- `ModbusDevice::setInitPhase`: atomically exchange the phase; when it
actually changed and an event group is configured, entering READY sets the
(nonzero) ready bit and entering ERROR the (nonzero) error bit.  `bits` is
the external event group's bit state. -/
def setInitPhase (s : DeviceState) (bits : Nat) (phase : InitPhase) :
    DeviceState × Nat :=
  let oldPhase := s.initPhase
  let s1 := { s with initPhase := phase }
  if oldPhase = phase then (s1, bits)
  else if s1.eventGroup then
    if phase = InitPhase.READY ∧ s1.readyBit ≠ 0 then
      (s1, bits ||| s1.readyBit)
    else if phase = InitPhase.ERROR ∧ s1.errorBit ≠ 0 then
      (s1, bits ||| s1.errorBit)
    else (s1, bits)
  else (s1, bits)

/-- `ModbusDevice::setEventGroup`: store the group handle and bits, then, if
the phase has already settled in READY or ERROR, set the corresponding
(nonzero) bit immediately. -/
def setEventGroup (s : DeviceState) (bits : Nat) (group : Bool)
    (ready error : Nat) : DeviceState × Nat :=
  let s1 := { s with eventGroup := group, readyBit := ready, errorBit := error }
  let currentPhase := s1.initPhase
  if s1.eventGroup then
    if currentPhase = InitPhase.READY ∧ s1.readyBit ≠ 0 then
      (s1, bits ||| s1.readyBit)
    else if currentPhase = InitPhase.ERROR ∧ s1.errorBit ≠ 0 then
      (s1, bits ||| s1.errorBit)
    else (s1, bits)
  else (s1, bits)

/-- Write-operation test of `ModbusDevice::handleData` (FCs 0x06, 0x10,
0x05, 0x0F accept empty response payloads). -/
def isWriteOp (fc : Nat) : Bool :=
  fc = 0x06 ∨ fc = 0x10 ∨ fc = 0x05 ∨ fc = 0x0F

/-- Sync-context section of `ModbusDevice::handleData`: under a successful
try-lock of the sync mutex, a first response with a non-null buffer is
copied into the context and the waiter's semaphore is given, provided the
payload is nonempty or the function code is a write.  Returns the updated
device state and whether the semaphore was given.  `data = none` models a
null buffer pointer. -/
def handleDataCore (s : DeviceState) (tryLockOk : Bool) (fc : Nat)
    (data : Option (List Nat)) : DeviceState × Bool :=
  match s.syncContext with
  | none => (s, false)
  | some ctx =>
    if s.syncMutexOk = false then (s, false)
    else if tryLockOk = false then (s, false)
    else if ctx.responseReceived = false ∧ data.isSome then
      let payload := data.getD []
      if payload.length > 0 ∨ isWriteOp fc then
        let ctx2 := { ctx with responseData := payload, responseReceived := true }
        ({ s with syncContext := some ctx2 }, true)
      else (s, false)
    else (s, false)

/-- Packet copied into the queue (QueuedModbusDevice.h `struct ModbusPacket`):
the payload bytes are stored by value, bounded to `MODBUS_MAX_READ_SIZE`. -/
structure ModbusPacket where
  functionCode : Nat
  address : Nat
  data : List Nat
  length : Nat
  timestamp : Nat
deriving DecidableEq, Repr

/-- State of a `QueuedModbusDevice`: the base device plus the optional
bounded FIFO (`none` = queue not created) with its capacity, and the atomic
`asyncMode` flag. -/
structure QueuedState where
  base : DeviceState
  queue : Option (List ModbusPacket)
  queueCapacity : Nat
  asyncMode : Bool
deriving DecidableEq, Repr

/-- `QueuedModbusDevice::handleModbusResponse`: during CONFIGURING, or with
async mode off or no queue, defer to the base handler (which only logs);
otherwise copy the response into a packet (payload truncated to
`MODBUS_MAX_READ_SIZE`) and enqueue it, invoking the queue-full hook instead
when the FIFO is at capacity.  Returns the new state and whether
`onQueueFull` was invoked. -/
def QueuedModbusDevice.handleModbusResponse (q : QueuedState)
    (now fc addr : Nat) (data : Option (List Nat)) (length : Nat) :
    QueuedState × Bool :=
  if q.base.initPhase = InitPhase.CONFIGURING ∨ q.asyncMode = false ∨ q.queue = none then
    (q, false)
  else
    let plen := if length > MODBUS_MAX_READ_SIZE then MODBUS_MAX_READ_SIZE else length
    let payload :=
      match data with
      | some d => if plen > 0 then d.take plen else []
      | none => []
    let packet : ModbusPacket :=
      { functionCode := fc, address := addr, data := payload,
        length := plen, timestamp := now }
    match q.queue with
    | some items =>
        if items.length < q.queueCapacity then
          ({ q with queue := some (items ++ [packet]) }, false)
        else (q, true)
    | none => (q, false)

/-- Full callback path for a queued device: `ModbusDevice::handleData` first
updates the sync context (possibly giving the waiter's semaphore), then
invokes the virtual `handleModbusResponse`, which for a `QueuedModbusDevice`
is the queued override.  Returns the new state, whether the sync semaphore
was given, and whether the queue-full hook ran. -/
def QueuedModbusDevice.handleData (q : QueuedState) (tryLockOk : Bool)
    (now fc addr : Nat) (data : Option (List Nat)) (length : Nat) :
    QueuedState × Bool × Bool :=
  let core := handleDataCore q.base tryLockOk fc data
  let handled := QueuedModbusDevice.handleModbusResponse
    { q with base := core.1 } now fc addr data length
  (handled.1, core.2, handled.2)

/-- Trace projection of a transaction run. -/
def traceOf {α : Type} (r : α × DeviceState × List Event) : List Event := r.2.2

/-- Number of successful bus-mutex acquisitions recorded in a trace. -/
def acquires : List Event → Nat
  | [] => 0
  | Event.acquire true :: rest => acquires rest + 1
  | _ :: rest => acquires rest

/-- Number of bus-mutex releases recorded in a trace. -/
def releases : List Event → Nat
  | [] => 0
  | Event.release :: rest => releases rest + 1
  | _ :: rest => releases rest

/-- Whether a trace contains a transport-dispatch event. -/
def hasDispatch : List Event → Bool
  | [] => false
  | Event.dispatch _ :: _ => true
  | _ :: rest => hasDispatch rest

/-- Holds when no transport dispatch happens after the result flags are
cleared, i.e. every flag-clearing comes after every dispatch. -/
def clearAfterDispatch : List Event → Bool
  | [] => true
  | Event.clearFlags :: rest => !hasDispatch rest && clearAfterDispatch rest
  | _ :: rest => clearAfterDispatch rest

/-- Holds when every transport dispatch is preceded by a clearing of the
result flags (`seen` records whether a clearing happened already). -/
def dispatchPrecededByClear (seen : Bool) : List Event → Bool
  | [] => true
  | Event.dispatch _ :: rest => seen && dispatchPrecededByClear seen rest
  | Event.clearFlags :: rest => dispatchPrecededByClear true rest
  | _ :: rest => dispatchPrecededByClear seen rest

/-- Holds when every clearing of the result flags is immediately followed by
the blocking semaphore wait. -/
def clearThenSemWait : List Event → Bool
  | [] => true
  | Event.clearFlags :: Event.semWait :: rest => clearThenSemWait rest
  | Event.clearFlags :: _ => false
  | _ :: rest => clearThenSemWait rest

/-- All trace shapes a synchronous transaction can produce: early
parameter-validation return, bus-mutex timeout, dispatch never invoked
(missing transport, marshalling-allocation failure), failed dispatch,
successful dispatch with missing sync resources, and the full
request+wait round trip. -/
def allTraces : List (List Event) :=
  [ [],
    [Event.acquire false],
    [Event.acquire true, Event.release],
    [Event.acquire true, Event.dispatch false, Event.release],
    [Event.acquire true, Event.dispatch true, Event.release],
    [Event.acquire true, Event.dispatch true, Event.clearFlags,
     Event.semWait, Event.release] ]

/-- Arithmetic reading of the big-endian combination `(hi <<< n) ||| lo` for
`lo < 2 ^ n`. -/
theorem shiftLeft_lor_eq_of_lt (a b n : Nat) (h : b < 2 ^ n) :
    (a <<< n) ||| b = 2 ^ n * a + b := by
  apply Nat.eq_of_testBit_eq
  intro j
  rw [Nat.testBit_or, Nat.testBit_shiftLeft, Nat.testBit_mul_pow_two_add a h j]
  by_cases hj : j < n
  · have hge : ¬ (j ≥ n) := by omega
    simp [hj, hge]
  · have hge : j ≥ n := by omega
    have hb : b.testBit j = false :=
      Nat.testBit_lt_two_pow
        (lt_of_lt_of_le h (Nat.pow_le_pow_right (by norm_num) hge))
    simp [hj, hge, hb]

/-- C9: constructing a device with bus address 0 or above 247 yields an
effective address of 1 (observable through `getServerAddress`); any address
in [1, 247] is stored unchanged. -/
theorem constructor_address_fallback (selfId serverAddr : Nat) :
    ((serverAddr = 0 ∨ serverAddr > 247) →
      getServerAddress (mkModbusDevice selfId serverAddr) = 1) ∧
    (1 ≤ serverAddr → serverAddr ≤ 247 →
      getServerAddress (mkModbusDevice selfId serverAddr) = serverAddr) := by
  refine ⟨fun h => ?_, fun h1 h2 => ?_⟩ <;>
    simp only [getServerAddress, mkModbusDevice, MODBUS_MAX_SLAVE_ADDRESS] <;>
    split <;> omega

/-- Witness for `constructor_address_fallback` at addresses 0, 248 and 42. -/
theorem constructor_address_fallback_witness :
    getServerAddress (mkModbusDevice 7 0) = 1 ∧
    getServerAddress (mkModbusDevice 7 248) = 1 ∧
    getServerAddress (mkModbusDevice 7 42) = 42 :=
  ⟨(constructor_address_fallback 7 0).1 (Or.inl rfl),
   (constructor_address_fallback 7 248).1 (Or.inr (by omega)),
   (constructor_address_fallback 7 42).2 (by omega) (by omega)⟩

/-- State component of `setInitPhase`: the phase is exchanged for the new
one in every branch. -/
theorem setInitPhase_state (s : DeviceState) (bits : Nat) (phase : InitPhase) :
    (setInitPhase s bits phase).1 = { s with initPhase := phase } := by
  simp only [setInitPhase]
  repeat' split
  all_goals first
    | rfl
    | (rename_i h; rw [h.1])

/-- C7: `setInitPhase` stores the new phase unconditionally (atomic
exchange); a no-op transition changes no event-group bit; an actual
transition into READY (resp. ERROR) with a configured event group and a
nonzero registered bit sets that bit; and `setEventGroup` attached after the
phase already settled in READY (resp. ERROR) sets the corresponding bit
immediately. -/
theorem setInitPhase_event_bits (s : DeviceState) (bits : Nat)
    (phase : InitPhase) (group : Bool) (ready err : Nat) :
    ((setInitPhase s bits phase).1.initPhase = phase) ∧
    (s.initPhase = phase →
      setInitPhase s bits phase = ({ s with initPhase := phase }, bits)) ∧
    (s.initPhase ≠ InitPhase.READY → s.eventGroup = true → s.readyBit ≠ 0 →
      (setInitPhase s bits InitPhase.READY).2 = bits ||| s.readyBit) ∧
    (s.initPhase ≠ InitPhase.ERROR → s.eventGroup = true → s.errorBit ≠ 0 →
      (setInitPhase s bits InitPhase.ERROR).2 = bits ||| s.errorBit) ∧
    (s.initPhase = InitPhase.READY → group = true → ready ≠ 0 →
      (setEventGroup s bits group ready err).2 = bits ||| ready) ∧
    (s.initPhase = InitPhase.ERROR → group = true → err ≠ 0 →
      (setEventGroup s bits group ready err).2 = bits ||| err) := by
  refine ⟨?_, ?_, ?_, ?_, ?_, ?_⟩
  · rw [setInitPhase_state]
  · intro h
    simp [setInitPhase, h]
  · intro h1 h2 h3
    simp [setInitPhase, h1, h2, h3]
  · intro h1 h2 h3
    simp [setInitPhase, h1, h2, h3]
  · intro h1 h2 h3
    simp [setEventGroup, h1, h2, h3]
  · intro h1 h2 h3
    simp [setEventGroup, h1, h2, h3]

/-- Witness for `setInitPhase_event_bits`: a freshly constructed device with
event group configured transitions into READY and sets bit 4; a device
already in READY that attaches the group afterwards gets the bit at once. -/
theorem setInitPhase_event_bits_witness :
    (setInitPhase
      { mkModbusDevice 1 9 with eventGroup := true, readyBit := 4, errorBit := 8 }
      0 InitPhase.READY).2 = 4 ∧
    (setEventGroup { mkModbusDevice 1 9 with initPhase := InitPhase.READY }
      0 true 4 8).2 = 4 := by
  constructor
  · have h := (setInitPhase_event_bits
      { mkModbusDevice 1 9 with eventGroup := true, readyBit := 4, errorBit := 8 }
      0 InitPhase.READY true 4 8).2.2.1 (by decide) rfl (by decide)
    simpa using h
  · have h := (setInitPhase_event_bits
      { mkModbusDevice 1 9 with initPhase := InitPhase.READY }
      0 InitPhase.READY true 4 8).2.2.2.2.1 rfl rfl (by decide)
    simpa using h

/-- Lookup after an overwrite-or-insert at the same key. -/
theorem mapFind_mapInsert_self (l : List (Nat × Nat)) (a d : Nat) :
    mapFind (mapInsert l a d) a = some d := by
  induction l with
  | nil => simp [mapInsert, mapFind]
  | cons hd tl ih =>
      obtain ⟨k, v⟩ := hd
      by_cases h : k = a
      · simp [mapInsert, mapFind, h]
      · simp [mapInsert, mapFind, h, ih]

/-- Lookup after an overwrite-or-insert at a different key. -/
theorem mapFind_mapInsert_ne (l : List (Nat × Nat)) (a b d : Nat)
    (h : a ≠ b) : mapFind (mapInsert l b d) a = mapFind l a := by
  have hba : b ≠ a := Ne.symm h
  induction l with
  | nil => simp [mapInsert, mapFind, hba]
  | cons hd tl ih =>
      obtain ⟨k, v⟩ := hd
      by_cases hk : k = b
      · subst hk
        simp [mapInsert, mapFind, hba]
      · simp only [mapInsert, if_neg hk, mapFind]
        rw [ih]

/-- Overwriting a present key does not change the size of the map. -/
theorem length_mapInsert_of_found (l : List (Nat × Nat)) (a d d0 : Nat)
    (h : mapFind l a = some d0) :
    (mapInsert l a d).length = l.length := by
  induction l with
  | nil => simp [mapFind] at h
  | cons hd tl ih =>
      obtain ⟨k, v⟩ := hd
      by_cases hk : k = a
      · simp [mapInsert, hk]
      · simp only [mapFind, if_neg hk] at h
        simp [mapInsert, hk, ih h]

/-- A key is absent exactly when lookup fails. -/
theorem mapFind_eq_none_iff (l : List (Nat × Nat)) (a : Nat) :
    mapFind l a = none ↔ a ∉ l.map Prod.fst := by
  induction l with
  | nil => simp [mapFind]
  | cons hd tl ih =>
      obtain ⟨k, v⟩ := hd
      by_cases hk : k = a
      · simp [mapFind, hk]
      · have hak : a ≠ k := Ne.symm hk
        simp only [mapFind, if_neg hk, List.map_cons, List.mem_cons]
        rw [ih]
        simp [not_or, hak]

/-- Keys after an overwrite-or-insert: unchanged when present, appended
otherwise. -/
theorem keys_mapInsert (l : List (Nat × Nat)) (a d : Nat) :
    (mapInsert l a d).map Prod.fst =
      if a ∈ l.map Prod.fst then l.map Prod.fst else l.map Prod.fst ++ [a] := by
  induction l with
  | nil => simp [mapInsert]
  | cons hd tl ih =>
      obtain ⟨k, v⟩ := hd
      by_cases hk : k = a
      · simp [mapInsert, hk]
      · have hak : a ≠ k := Ne.symm hk
        by_cases hmem : a ∈ tl.map Prod.fst
        · simp [mapInsert, hk, ih, hmem, hak]
        · simp [mapInsert, hk, ih, hmem, hak]

/-- Overwrite-or-insert preserves key distinctness. -/
theorem nodup_keys_mapInsert (l : List (Nat × Nat)) (a d : Nat)
    (h : (l.map Prod.fst).Nodup) :
    ((mapInsert l a d).map Prod.fst).Nodup := by
  rw [keys_mapInsert]
  by_cases hmem : a ∈ l.map Prod.fst
  · simpa [hmem] using h
  · simp only [if_neg hmem]
    refine List.Nodup.append h (List.nodup_singleton a) ?_
    simpa [List.disjoint_singleton] using hmem

/-- The keys after an erase form a sublist of the original keys. -/
theorem keys_mapErase_sublist (l : List (Nat × Nat)) (a : Nat) :
    ((mapErase l a).map Prod.fst).Sublist (l.map Prod.fst) := by
  induction l with
  | nil => simp [mapErase]
  | cons hd tl ih =>
      obtain ⟨k, v⟩ := hd
      by_cases hk : k = a
      · simpa [mapErase, hk] using List.sublist_cons_self k (tl.map Prod.fst)
      · simpa [mapErase, hk] using List.Sublist.cons₂ k ih

/-- Erase preserves key distinctness. -/
theorem nodup_keys_mapErase (l : List (Nat × Nat)) (a : Nat)
    (h : (l.map Prod.fst).Nodup) :
    ((mapErase l a).map Prod.fst).Nodup :=
  (keys_mapErase_sublist l a).nodup h

/-- With distinct keys, erasing a key makes its lookup fail. -/
theorem mapFind_mapErase_self (l : List (Nat × Nat)) (a : Nat)
    (h : (l.map Prod.fst).Nodup) :
    mapFind (mapErase l a) a = none := by
  induction l with
  | nil => simp [mapErase, mapFind]
  | cons hd tl ih =>
      obtain ⟨k, v⟩ := hd
      simp only [List.map_cons, List.nodup_cons] at h
      by_cases hk : k = a
      · subst hk
        simp only [mapErase, if_pos rfl]
        rw [mapFind_eq_none_iff]
        exact h.1
      · simp [mapErase, mapFind, hk, ih h.2]

/-- C8: registering at an occupied address replaces the mapping with the
device count unchanged; unregistering an absent address reports not-found
without modifying the map; both operations preserve key distinctness (at
most one device per address), under which `getDeviceCount` equals the
number of distinct registered addresses. -/
theorem registry_replace_and_count (reg : Registry) (lockOk : Bool)
    (address dOld dNew : Nat) :
    (reg.mutexOk = true → dNew ≠ 0 → address ≠ 0 → address ≤ 247 →
      mapFind reg.entries address = some dOld →
      (ModbusRegistry.registerDevice reg true address dNew).1 = true ∧
      mapFind (ModbusRegistry.registerDevice reg true address dNew).2.entries
        address = some dNew ∧
      (ModbusRegistry.registerDevice reg true address dNew).2.entries.length =
        reg.entries.length) ∧
    (mapFind reg.entries address = none →
      ModbusRegistry.unregisterDevice reg lockOk address = (false, reg)) ∧
    ((reg.entries.map Prod.fst).Nodup →
      (((ModbusRegistry.registerDevice reg lockOk address dNew).2.entries.map
          Prod.fst).Nodup ∧
       ((ModbusRegistry.unregisterDevice reg lockOk address).2.entries.map
          Prod.fst).Nodup)) ∧
    ((reg.entries.map Prod.fst).Nodup → reg.mutexOk = true →
      ModbusRegistry.getDeviceCount reg true =
        (reg.entries.map Prod.fst).dedup.length) := by
  refine ⟨?_, ?_, ?_, ?_⟩
  · intro hm hd ha1 ha2 hfound
    have hvalid : ¬ (dNew = 0 ∨ address = 0 ∨ address > 247) := by omega
    refine ⟨?_, ?_, ?_⟩ <;>
      simp [ModbusRegistry.registerDevice, hvalid, hm,
            mapFind_mapInsert_self, length_mapInsert_of_found _ _ _ _ hfound]
  · intro hnone
    simp only [ModbusRegistry.unregisterDevice]
    split
    · rfl
    · split
      · rfl
      · rw [hnone]
  · intro hnd
    constructor
    · simp only [ModbusRegistry.registerDevice]
      split
      · exact hnd
      · split
        · exact hnd
        · split
          · exact hnd
          · exact nodup_keys_mapInsert _ _ _ hnd
    · simp only [ModbusRegistry.unregisterDevice]
      split
      · exact hnd
      · split
        · exact hnd
        · split
          · exact nodup_keys_mapErase _ _ hnd
          · exact hnd
  · intro hnd hm
    have hded : (reg.entries.map Prod.fst).dedup = reg.entries.map Prod.fst :=
      List.dedup_eq_self.mpr hnd
    simp [ModbusRegistry.getDeviceCount, hm, hded]

/-- Witness for `registry_replace_and_count`: replacing the device at
address 5 keeps the count at 2 and the lookup returns the new device; the
edge conjuncts are instantiated on the same concrete registry. -/
theorem registry_replace_and_count_witness :
    (ModbusRegistry.registerDevice
      { entries := [(5, 11), (9, 12)], mutexOk := true } true 5 13).1 = true ∧
    mapFind (ModbusRegistry.registerDevice
      { entries := [(5, 11), (9, 12)], mutexOk := true } true 5 13).2.entries 5
      = some 13 ∧
    (ModbusRegistry.registerDevice
      { entries := [(5, 11), (9, 12)], mutexOk := true } true 5 13).2.entries.length = 2 ∧
    ModbusRegistry.unregisterDevice
      { entries := [(5, 11), (9, 12)], mutexOk := true } true 7
      = (false, { entries := [(5, 11), (9, 12)], mutexOk := true }) ∧
    ModbusRegistry.getDeviceCount
      { entries := [(5, 11), (9, 12)], mutexOk := true } true
      = ([5, 9] : List Nat).dedup.length := by
  have h := registry_replace_and_count
    { entries := [(5, 11), (9, 12)], mutexOk := true } true 5 11 13
  have h7 := registry_replace_and_count
    { entries := [(5, 11), (9, 12)], mutexOk := true } true 7 11 13
  have h1 := h.1 rfl (by decide) (by decide) (by decide) (by decide)
  have h2 := h7.2.1 (by decide)
  have h4 := h.2.2.2 (by decide) rfl
  exact ⟨h1.1, h1.2.1, h1.2.2, h2, h4⟩

/-- C10: `setServerAddress` with address 0 or above 247 returns
`INVALID_ADDRESS` leaving both the device and the registry untouched; with a
valid new address (and a distinct-key registry whose lock is taken) it
stores the new address and removes the old mapping. -/
theorem setServerAddress_validation (s : DeviceState) (reg : Registry)
    (lockOk : Bool) (address : Nat) :
    ((address = 0 ∨ address > 247) →
      setServerAddress s reg lockOk address =
        (Except.error ModbusError.INVALID_ADDRESS, s, reg)) ∧
    (1 ≤ address → address ≤ 247 → reg.mutexOk = true →
      (reg.entries.map Prod.fst).Nodup → address ≠ s.serverAddress →
      (setServerAddress s reg true address).2.1.serverAddress = address ∧
      mapFind (setServerAddress s reg true address).2.2.entries
        s.serverAddress = none) := by
  constructor
  · intro h
    simp only [setServerAddress, MODBUS_MAX_SLAVE_ADDRESS]
    rw [if_pos h]
  · intro h1 h2 hm hnd hne
    have hinv : ¬ (address = 0 ∨ address > MODBUS_MAX_SLAVE_ADDRESS) := by
      simp only [ MODBUS_MAX_SLAVE_ADDRESS]; omega
    have hold : mapFind
        (ModbusDevice.unregisterDevice s reg true).2.entries s.serverAddress = none := by
      simp only [ModbusDevice.unregisterDevice, ModbusRegistry.unregisterDevice, hm]
      split
      · simp_all
      · split
        · rename_i hfound
          exact mapFind_mapErase_self _ _ hnd
        · rename_i hnone
          simp_all [mapFind_eq_none_iff]
    simp only [setServerAddress, if_neg hinv]
    split
    · simp only [ModbusDevice.registerDevice, ModbusRegistry.registerDevice]
      split
      · simp [hold]
      · split
        · simp [hold]
        · split
          · simp [hold]
          · simp [mapFind_mapInsert_ne _ _ _ _ (Ne.symm hne), hold]
    · simp [hold]

/-- Witness for `setServerAddress_validation`: a rejected address 0 leaves a
registered READY device untouched; moving the same device from address 5 to
6 stores 6 and clears the old mapping. -/
theorem setServerAddress_validation_witness :
    setServerAddress
      { mkModbusDevice 11 5 with initPhase := InitPhase.READY }
      { entries := [(5, 11)], mutexOk := true } true 0
      = (Except.error ModbusError.INVALID_ADDRESS,
         { mkModbusDevice 11 5 with initPhase := InitPhase.READY },
         { entries := [(5, 11)], mutexOk := true }) ∧
    (setServerAddress
      { mkModbusDevice 11 5 with initPhase := InitPhase.READY }
      { entries := [(5, 11)], mutexOk := true } true 6).2.1.serverAddress = 6 ∧
    mapFind (setServerAddress
      { mkModbusDevice 11 5 with initPhase := InitPhase.READY }
      { entries := [(5, 11)], mutexOk := true } true 6).2.2.entries 5 = none := by
  have ha := (setServerAddress_validation
    { mkModbusDevice 11 5 with initPhase := InitPhase.READY }
    { entries := [(5, 11)], mutexOk := true } true 0).1 (Or.inl rfl)
  have hb := (setServerAddress_validation
    { mkModbusDevice 11 5 with initPhase := InitPhase.READY }
    { entries := [(5, 11)], mutexOk := true } true 6).2
    (by decide) (by decide) rfl (by decide) (by decide)
  exact ⟨ha, hb.1, hb.2⟩

/-- The phase is untouched by the sync-context section of `handleData`. -/
theorem handleDataCore_initPhase (s : DeviceState) (t : Bool) (fc : Nat)
    (d : Option (List Nat)) :
    (handleDataCore s t fc d).1.initPhase = s.initPhase := by
  simp only [handleDataCore]
  repeat' split
  all_goals rfl

/-- Base state of a queued device that finished a CONFIGURING-phase read
with a timeout (so the sync context exists with its received flag cleared)
and then moved to READY: a reachable pre-state for an async-mode response. -/
def c5Base : DeviceState :=
  { mkModbusDevice 3 4 with
      initPhase := InitPhase.READY
      syncMutexOk := true
      syncContext := some
        { responseData := [], responseReceived := false,
          errorOccurred := false, error := ModbusError.TIMEOUT,
          semaphoreOk := true } }

/-- The same device with async mode enabled and an empty ten-slot queue. -/
def c5Queued : QueuedState :=
  { base := c5Base, queue := some [], queueCapacity := 10, asyncMode := true }

/-- Counterexample to C5: for this async-enabled READY device, an incoming
FC 0x03 response of two bytes is enqueued, but the callback path ALSO sets
the sync context's received flag and gives the waiter's semaphore — the
shared `handleData` preamble runs before the queued override regardless of
async mode, so the claimed "does not set the sync context's received flag or
signal its semaphore" fails. -/
theorem queued_async_sync_wakeup_counterexample :
    (QueuedModbusDevice.handleData c5Queued true 100 0x03 0x0010
      (some [1, 2]) 2).2.1 = true ∧
    (QueuedModbusDevice.handleData c5Queued true 100 0x03 0x0010
      (some [1, 2]) 2).1.base.syncContext = some
        { responseData := [1, 2], responseReceived := true,
          errorOccurred := false, error := ModbusError.TIMEOUT,
          semaphoreOk := true } ∧
    (QueuedModbusDevice.handleData c5Queued true 100 0x03 0x0010
      (some [1, 2]) 2).1.queue = some
        [{ functionCode := 0x03, address := 0x0010, data := [1, 2],
           length := 2, timestamp := 100 }] := by
  decide

/-- C5 (amended): for an async-enabled queued device outside CONFIGURING,
every incoming response is copied by value into the FIFO (appended when the
queue has room); the enqueue path itself performs no synchronous wake-up —
in particular, when no sync context exists the received flag stays absent
and the semaphore is not given — but the shared `handleData` preamble still
updates a present sync context before the queued handler runs; during
CONFIGURING the response goes through the synchronous path and is never
enqueued. -/
theorem queued_async_routing (q : QueuedState) (tryLockOk : Bool)
    (now fc addr length : Nat) (payload : List Nat)
    (items : List ModbusPacket) :
    (q.base.initPhase ≠ InitPhase.CONFIGURING → q.asyncMode = true →
      q.queue = some items → items.length < q.queueCapacity →
      payload.length = length → length ≤ MODBUS_MAX_READ_SIZE →
      (QueuedModbusDevice.handleData q tryLockOk now fc addr
        (some payload) length).1.queue =
        some (items ++ [ModbusPacket.mk fc addr payload length now])) ∧
    (q.base.syncContext = none →
      (QueuedModbusDevice.handleData q tryLockOk now fc addr
        (some payload) length).2.1 = false ∧
      (QueuedModbusDevice.handleData q tryLockOk now fc addr
        (some payload) length).1.base.syncContext = none) ∧
    (q.base.initPhase = InitPhase.CONFIGURING →
      (QueuedModbusDevice.handleData q tryLockOk now fc addr
        (some payload) length).1.queue = q.queue ∧
      (QueuedModbusDevice.handleData q tryLockOk now fc addr
        (some payload) length).1.base =
        (handleDataCore q.base tryLockOk fc (some payload)).1 ∧
      (QueuedModbusDevice.handleData q tryLockOk now fc addr
        (some payload) length).2.2 = false) := by
  refine ⟨?_, ?_, ?_⟩
  · intro h1 h2 h3 h4 h5 h6
    have hphase : (handleDataCore q.base tryLockOk fc (some payload)).1.initPhase
        = q.base.initPhase := handleDataCore_initPhase _ _ _ _
    have hnotc : ¬ ((handleDataCore q.base tryLockOk fc (some payload)).1.initPhase
        = InitPhase.CONFIGURING ∨ q.asyncMode = false ∨ q.queue = none) := by
      rw [hphase]
      simp [h1, h2, h3]
    have hplen : ¬ (length > MODBUS_MAX_READ_SIZE) := by omega
    simp only [QueuedModbusDevice.handleData,
               QueuedModbusDevice.handleModbusResponse]
    rw [if_neg hnotc]
    simp only [h3, if_neg hplen, if_pos h4]
    by_cases hz : length > 0
    · simp [hz, ← h5, List.take_length]
    · have hlz : length = 0 := by omega
      have hpz : payload = [] := by
        cases payload with
        | nil => rfl
        | cons a t => simp [hlz] at h5
      simp [hz, hlz, hpz]
  · intro h
    have hcore : handleDataCore q.base tryLockOk fc (some payload) = (q.base, false) := by
      simp [handleDataCore, h]
    simp only [QueuedModbusDevice.handleData, hcore]
    constructor
    · trivial
    · simp only [QueuedModbusDevice.handleModbusResponse]
      split
      · exact h
      · split
        · split
          · exact h
          · exact h
        · exact h
  · intro h
    have hphase : (handleDataCore q.base tryLockOk fc (some payload)).1.initPhase
        = InitPhase.CONFIGURING := by rw [handleDataCore_initPhase]; exact h
    simp only [QueuedModbusDevice.handleData,
               QueuedModbusDevice.handleModbusResponse]
    rw [if_pos (Or.inl hphase)]
    exact ⟨rfl, rfl, rfl⟩

/-- Witness for `queued_async_routing`: the async READY device enqueues the
two-byte packet; a device without a sync context gives no semaphore; a
CONFIGURING device leaves its queue untouched. -/
theorem queued_async_routing_witness :
    (QueuedModbusDevice.handleData c5Queued true 100 0x03 0x0010
      (some [1, 2]) 2).1.queue =
      some [ModbusPacket.mk 0x03 0x0010 [1, 2] 2 100] ∧
    (QueuedModbusDevice.handleData
      { base := mkModbusDevice 3 4, queue := some [], queueCapacity := 10,
        asyncMode := true } true 100 0x03 0x0010 (some [1, 2]) 2).2.1 = false ∧
    (QueuedModbusDevice.handleData
      { base := { mkModbusDevice 3 4 with initPhase := InitPhase.CONFIGURING },
        queue := some [], queueCapacity := 10, asyncMode := true }
      true 100 0x03 0x0010 (some [1, 2]) 2).1.queue = some [] := by
  refine ⟨?_, ?_, ?_⟩
  · have h := (queued_async_routing c5Queued true 100 0x03 0x0010 2 [1, 2] []).1
      (by decide) rfl rfl (by decide) (by decide) (by decide)
    simpa using h
  · exact ((queued_async_routing
      { base := mkModbusDevice 3 4, queue := some [], queueCapacity := 10,
        asyncMode := true } true 100 0x03 0x0010 2 [1, 2] []).2.1 rfl).1
  · exact ((queued_async_routing
      { base := { mkModbusDevice 3 4 with initPhase := InitPhase.CONFIGURING },
        queue := some [], queueCapacity := 10, asyncMode := true }
      true 100 0x03 0x0010 2 [1, 2] []).2.2 rfl).1

/-- The dispatch switch either performs no dispatch and fails, or records
exactly one dispatch event whose outcome determines the result. -/
theorem sendStep_shape (env : TransEnv) (fc count : Nat)
    (data : Option (List Nat)) :
    (sendStep env fc count data = (EspErr.fail, [])) ∨
    (sendStep env fc count data = (EspErr.noMem, [])) ∨
    (sendStep env fc count data =
      ((if env.dispatchOk then EspErr.ok else EspErr.fail),
       [Event.dispatch env.dispatchOk])) := by
  simp only [sendStep]
  repeat' split
  all_goals simp

/-- A dispatch helper run produces one of three observable outcomes: no
dispatch event and a non-OK result, a failed dispatch event and a non-OK
result, or a successful dispatch event and an OK result. -/
theorem sendRequest_shape (s : DeviceState) (env : TransEnv)
    (fc addr count : Nat) (priority : ModbusPriority)
    (data : Option (List Nat)) :
    ((sendRequestWithPriority s env fc addr count priority data).2.2 = [] ∧
     (sendRequestWithPriority s env fc addr count priority data).1 ≠ EspErr.ok) ∨
    ((sendRequestWithPriority s env fc addr count priority data).2.2 =
        [Event.dispatch false] ∧
     (sendRequestWithPriority s env fc addr count priority data).1 ≠ EspErr.ok) ∨
    ((sendRequestWithPriority s env fc addr count priority data).2.2 =
        [Event.dispatch true] ∧
     (sendRequestWithPriority s env fc addr count priority data).1 = EspErr.ok) := by
  simp only [sendRequestWithPriority]
  split
  · left; exact ⟨rfl, by simp⟩
  · rcases sendStep_shape env fc count data with h | h | h <;> rw [h]
    · left; exact ⟨rfl, by simp⟩
    · left; exact ⟨rfl, by simp⟩
    · cases hd : env.dispatchOk
      · right; left; exact ⟨rfl, by simp⟩
      · right; right; exact ⟨rfl, by simp⟩

/-- A response wait records either nothing (missing sync resources) or the
flag-clearing followed by the semaphore wait. -/
theorem waitForResponse_shape (s : DeviceState) (w : WaitOutcome) :
    (waitForResponse s w).2.2 = [] ∨
    (waitForResponse s w).2.2 = [Event.clearFlags, Event.semWait] := by
  simp only [waitForResponse]
  repeat' split
  all_goals simp

/-- `ensureSyncReady` touches only the sync resources. -/
theorem ensureSyncReady_counters (s : DeviceState) (env : TransEnv) :
    (ensureSyncReady s env).totalRequests = s.totalRequests ∧
    (ensureSyncReady s env).lastError = s.lastError := by
  simp only [ensureSyncReady]
  repeat' split
  all_goals exact ⟨rfl, rfl⟩

/-- The dispatch helper increments `totalRequests` by one exactly when the
transport is configured in the registry. -/
theorem sendRequest_totalRequests (s : DeviceState) (env : TransEnv)
    (fc addr count : Nat) (priority : ModbusPriority)
    (data : Option (List Nat)) :
    (sendRequestWithPriority s env fc addr count priority data).2.1.totalRequests =
      s.totalRequests + (if env.rtuPresent = true then 1 else 0) := by
  simp only [sendRequestWithPriority]
  split
  · rename_i h
    simp [h]
  · rename_i h
    have h1 : env.rtuPresent = true := by
      cases henv : env.rtuPresent
      · exact absurd henv h
      · rfl
    split
    all_goals simp [h1]

/-- The response wait never changes `totalRequests`. -/
theorem waitForResponse_totalRequests (s : DeviceState) (w : WaitOutcome) :
    (waitForResponse s w).2.1.totalRequests = s.totalRequests := by
  simp only [waitForResponse]
  repeat' split
  all_goals rfl

/-- Every run of `readHoldingRegistersWithPriority` produces one of the six
transaction trace shapes. -/
theorem readHoldingRegisters_trace_mem (s : DeviceState) (env : TransEnv)
    (address count : Nat) (priority : ModbusPriority) :
    traceOf (readHoldingRegistersWithPriority s env address count priority)
      ∈ allTraces := by
  simp only [readHoldingRegistersWithPriority, traceOf]
  split
  · simp [allTraces]
  · split
    · simp [allTraces]
    · rcases sendRequest_shape (ensureSyncReady s env) env 0x03 address count
        priority none with ⟨h1, h2⟩ | ⟨h1, h2⟩ | ⟨h1, h2⟩
      · rw [if_pos h2]; simp [h1, allTraces]
      · rw [if_pos h2]; simp [h1, allTraces]
      · rw [if_neg (by simp [h2])]
        rcases waitForResponse_shape
          (sendRequestWithPriority (ensureSyncReady s env) env 0x03 address
            count priority none).2.1 env.waitOutcome with h3 | h3 <;>
          simp [h1, h3, allTraces]

/-- Every run of `readInputRegistersWithPriority` produces one of the six
transaction trace shapes. -/
theorem readInputRegisters_trace_mem (s : DeviceState) (env : TransEnv)
    (address count : Nat) (priority : ModbusPriority) :
    traceOf (readInputRegistersWithPriority s env address count priority)
      ∈ allTraces := by
  simp only [readInputRegistersWithPriority, traceOf]
  split
  · simp [allTraces]
  · split
    · simp [allTraces]
    · rcases sendRequest_shape (ensureSyncReady s env) env 0x04 address count
        priority none with ⟨h1, h2⟩ | ⟨h1, h2⟩ | ⟨h1, h2⟩
      · rw [if_pos h2]; simp [h1, allTraces]
      · rw [if_pos h2]; simp [h1, allTraces]
      · rw [if_neg (by simp [h2])]
        rcases waitForResponse_shape
          (sendRequestWithPriority (ensureSyncReady s env) env 0x04 address
            count priority none).2.1 env.waitOutcome with h3 | h3 <;>
          simp [h1, h3, allTraces]

/-- Every run of `writeSingleRegisterWithPriority` produces one of the six
transaction trace shapes. -/
theorem writeSingleRegister_trace_mem (s : DeviceState) (env : TransEnv)
    (address value : Nat) (priority : ModbusPriority) :
    traceOf (writeSingleRegisterWithPriority s env address value priority)
      ∈ allTraces := by
  simp only [writeSingleRegisterWithPriority, traceOf]
  split
  · simp [allTraces]
  · rcases sendRequest_shape (ensureSyncReady s env) env 0x06 address 1
      priority (some [value]) with ⟨h1, h2⟩ | ⟨h1, h2⟩ | ⟨h1, h2⟩
    · rw [if_pos h2]; simp [h1, allTraces]
    · rw [if_pos h2]; simp [h1, allTraces]
    · rw [if_neg (by simp [h2])]
      rcases waitForResponse_shape
        (sendRequestWithPriority (ensureSyncReady s env) env 0x06 address 1
          priority (some [value])).2.1 env.waitOutcome with h3 | h3 <;>
        simp [h1, h3, allTraces]

/-- Every run of `writeMultipleRegisters` produces one of the six
transaction trace shapes. -/
theorem writeMultipleRegisters_trace_mem (s : DeviceState) (env : TransEnv)
    (address : Nat) (values : List Nat) :
    traceOf (writeMultipleRegisters s env address values) ∈ allTraces := by
  simp only [writeMultipleRegisters, sendRequestInternal, traceOf]
  split
  · simp [allTraces]
  · split
    · simp [allTraces]
    · rcases sendRequest_shape (ensureSyncReady s env) env 0x10 address
        values.length ModbusPriority.RELAY (some values) with
        ⟨h1, h2⟩ | ⟨h1, h2⟩ | ⟨h1, h2⟩
      · rw [if_pos h2]; simp [h1, allTraces]
      · rw [if_pos h2]; simp [h1, allTraces]
      · rw [if_neg (by simp [h2])]
        rcases waitForResponse_shape
          (sendRequestWithPriority (ensureSyncReady s env) env 0x10 address
            values.length ModbusPriority.RELAY (some values)).2.1
          env.waitOutcome with h3 | h3 <;>
          simp [h1, h3, allTraces]

/-- Every run of `readCoils` produces one of the six transaction trace
shapes. -/
theorem readCoils_trace_mem (s : DeviceState) (env : TransEnv)
    (address count : Nat) :
    traceOf (readCoils s env address count) ∈ allTraces := by
  simp only [readCoils, sendRequestInternal, traceOf]
  split
  · simp [allTraces]
  · split
    · simp [allTraces]
    · rcases sendRequest_shape (ensureSyncReady s env) env 0x01 address count
        ModbusPriority.RELAY none with ⟨h1, h2⟩ | ⟨h1, h2⟩ | ⟨h1, h2⟩
      · rw [if_pos h2]; simp [h1, allTraces]
      · rw [if_pos h2]; simp [h1, allTraces]
      · rw [if_neg (by simp [h2])]
        rcases waitForResponse_shape
          (sendRequestWithPriority (ensureSyncReady s env) env 0x01 address
            count ModbusPriority.RELAY none).2.1 env.waitOutcome with h3 | h3 <;>
          simp [h1, h3, allTraces]

/-- Every run of `readDiscreteInputs` produces one of the six transaction
trace shapes. -/
theorem readDiscreteInputs_trace_mem (s : DeviceState) (env : TransEnv)
    (address count : Nat) :
    traceOf (readDiscreteInputs s env address count) ∈ allTraces := by
  simp only [readDiscreteInputs, sendRequestInternal, traceOf]
  split
  · simp [allTraces]
  · split
    · simp [allTraces]
    · rcases sendRequest_shape (ensureSyncReady s env) env 0x02 address count
        ModbusPriority.RELAY none with ⟨h1, h2⟩ | ⟨h1, h2⟩ | ⟨h1, h2⟩
      · rw [if_pos h2]; simp [h1, allTraces]
      · rw [if_pos h2]; simp [h1, allTraces]
      · rw [if_neg (by simp [h2])]
        rcases waitForResponse_shape
          (sendRequestWithPriority (ensureSyncReady s env) env 0x02 address
            count ModbusPriority.RELAY none).2.1 env.waitOutcome with h3 | h3 <;>
          simp [h1, h3, allTraces]

/-- Every run of `writeSingleCoilWithPriority` produces one of the six
transaction trace shapes. -/
theorem writeSingleCoil_trace_mem (s : DeviceState) (env : TransEnv)
    (address : Nat) (value : Bool) (priority : ModbusPriority) :
    traceOf (writeSingleCoilWithPriority s env address value priority)
      ∈ allTraces := by
  simp only [writeSingleCoilWithPriority, traceOf]
  split
  · simp [allTraces]
  · rcases sendRequest_shape (ensureSyncReady s env) env 0x05 address 1
      priority (some [if value then 1 else 0]) with
      ⟨h1, h2⟩ | ⟨h1, h2⟩ | ⟨h1, h2⟩
    · rw [if_pos h2]; simp [h1, allTraces]
    · rw [if_pos h2]; simp [h1, allTraces]
    · rw [if_neg (by simp [h2])]
      rcases waitForResponse_shape
        (sendRequestWithPriority (ensureSyncReady s env) env 0x05 address 1
          priority (some [if value then 1 else 0])).2.1 env.waitOutcome with
        h3 | h3 <;>
        simp [h1, h3, allTraces]

/-- Every run of `writeMultipleCoils` produces one of the six transaction
trace shapes. -/
theorem writeMultipleCoils_trace_mem (s : DeviceState) (env : TransEnv)
    (address : Nat) (values : List Bool) :
    traceOf (writeMultipleCoils s env address values) ∈ allTraces := by
  simp only [writeMultipleCoils, sendRequestInternal, traceOf]
  split
  · simp [allTraces]
  · split
    · simp [allTraces]
    · rcases sendRequest_shape (ensureSyncReady s env) env 0x0F address
        values.length ModbusPriority.RELAY (some (packCoils values)) with
        ⟨h1, h2⟩ | ⟨h1, h2⟩ | ⟨h1, h2⟩
      · rw [if_pos h2]; simp [h1, allTraces]
      · rw [if_pos h2]; simp [h1, allTraces]
      · rw [if_neg (by simp [h2])]
        rcases waitForResponse_shape
          (sendRequestWithPriority (ensureSyncReady s env) env 0x0F address
            values.length ModbusPriority.RELAY (some (packCoils values))).2.1
          env.waitOutcome with h3 | h3 <;>
          simp [h1, h3, allTraces]

/-- C1: for every synchronous transaction operation and every outcome of the
call (invalid parameter, bus-mutex timeout, dispatch failure, delivered
response, delivered error, wait timeout — all covered by quantifying over
the oracle), the run's trace contains exactly as many successful bus-mutex
acquisitions as releases, so the caller never returns still holding the bus
mutex. -/
theorem busMutex_acquisitions_released :
    (∀ s env address count,
      acquires (traceOf (readHoldingRegisters s env address count)) =
        releases (traceOf (readHoldingRegisters s env address count))) ∧
    (∀ s env address count,
      acquires (traceOf (readInputRegisters s env address count)) =
        releases (traceOf (readInputRegisters s env address count))) ∧
    (∀ s env address count,
      acquires (traceOf (readCoils s env address count)) =
        releases (traceOf (readCoils s env address count))) ∧
    (∀ s env address count,
      acquires (traceOf (readDiscreteInputs s env address count)) =
        releases (traceOf (readDiscreteInputs s env address count))) ∧
    (∀ s env address value,
      acquires (traceOf (writeSingleRegister s env address value)) =
        releases (traceOf (writeSingleRegister s env address value))) ∧
    (∀ s env address values,
      acquires (traceOf (writeMultipleRegisters s env address values)) =
        releases (traceOf (writeMultipleRegisters s env address values))) ∧
    (∀ s env address value,
      acquires (traceOf (writeSingleCoil s env address value)) =
        releases (traceOf (writeSingleCoil s env address value))) ∧
    (∀ s env address values,
      acquires (traceOf (writeMultipleCoils s env address values)) =
        releases (traceOf (writeMultipleCoils s env address values))) := by
  have hbal : ∀ tr ∈ allTraces, acquires tr = releases tr := by decide
  refine ⟨?_, ?_, ?_, ?_, ?_, ?_, ?_, ?_⟩
  · exact fun s env a c =>
      hbal _ (readHoldingRegisters_trace_mem s env a c ModbusPriority.RELAY)
  · exact fun s env a c =>
      hbal _ (readInputRegisters_trace_mem s env a c ModbusPriority.RELAY)
  · exact fun s env a c => hbal _ (readCoils_trace_mem s env a c)
  · exact fun s env a c => hbal _ (readDiscreteInputs_trace_mem s env a c)
  · exact fun s env a v =>
      hbal _ (writeSingleRegister_trace_mem s env a v ModbusPriority.RELAY)
  · exact fun s env a vs => hbal _ (writeMultipleRegisters_trace_mem s env a vs)
  · exact fun s env a v =>
      hbal _ (writeSingleCoil_trace_mem s env a v ModbusPriority.RELAY)
  · exact fun s env a vs => hbal _ (writeMultipleCoils_trace_mem s env a vs)

/-- Oracle in which every fallible step succeeds but the transport never
delivers a response, so the wait times out. -/
def envAllOk : TransEnv :=
  { busMutexOk := true, rtuPresent := true, dispatchOk := true,
    heapOk := true, semAllocOk := true, syncMutexAllocOk := true,
    waitOutcome := WaitOutcome.timeout }

/-- Counterexample to C4: in a fully successful dispatch of
`readHoldingRegisters(0x0010, 4)` on a fresh device, the recorded trace
shows the request dispatched to the transport BEFORE the sync context's
result flags are cleared (the clearing happens inside `waitForResponse`),
so "flags are cleared before the request is dispatched" fails. -/
theorem flags_cleared_before_dispatch_counterexample :
    traceOf (readHoldingRegisters (mkModbusDevice 1 1) envAllOk 0x0010 4) =
      [Event.acquire true, Event.dispatch true, Event.clearFlags,
       Event.semWait, Event.release] ∧
    dispatchPrecededByClear false
      (traceOf (readHoldingRegisters (mkModbusDevice 1 1) envAllOk 0x0010 4))
      = false := by
  decide

/-- C4 (amended): within every synchronous transaction the sync context's
prior result flags are cleared AFTER the request is dispatched to the
transport — inside the response wait, immediately before blocking on the
semaphore — so no dispatch ever happens after the flags were cleared, and
every clearing is directly followed by the semaphore wait. -/
theorem flags_cleared_inside_wait :
    (∀ s env address count,
      clearAfterDispatch (traceOf (readHoldingRegisters s env address count))
        = true ∧
      clearThenSemWait (traceOf (readHoldingRegisters s env address count))
        = true) ∧
    (∀ s env address count,
      clearAfterDispatch (traceOf (readInputRegisters s env address count))
        = true ∧
      clearThenSemWait (traceOf (readInputRegisters s env address count))
        = true) ∧
    (∀ s env address count,
      clearAfterDispatch (traceOf (readCoils s env address count)) = true ∧
      clearThenSemWait (traceOf (readCoils s env address count)) = true) ∧
    (∀ s env address count,
      clearAfterDispatch (traceOf (readDiscreteInputs s env address count))
        = true ∧
      clearThenSemWait (traceOf (readDiscreteInputs s env address count))
        = true) ∧
    (∀ s env address value,
      clearAfterDispatch (traceOf (writeSingleRegister s env address value))
        = true ∧
      clearThenSemWait (traceOf (writeSingleRegister s env address value))
        = true) ∧
    (∀ s env address values,
      clearAfterDispatch (traceOf (writeMultipleRegisters s env address values))
        = true ∧
      clearThenSemWait (traceOf (writeMultipleRegisters s env address values))
        = true) ∧
    (∀ s env address value,
      clearAfterDispatch (traceOf (writeSingleCoil s env address value))
        = true ∧
      clearThenSemWait (traceOf (writeSingleCoil s env address value))
        = true) ∧
    (∀ s env address values,
      clearAfterDispatch (traceOf (writeMultipleCoils s env address values))
        = true ∧
      clearThenSemWait (traceOf (writeMultipleCoils s env address values))
        = true) := by
  have hc : ∀ tr ∈ allTraces,
      clearAfterDispatch tr = true ∧ clearThenSemWait tr = true := by decide
  refine ⟨?_, ?_, ?_, ?_, ?_, ?_, ?_, ?_⟩
  · exact fun s env a c =>
      hc _ (readHoldingRegisters_trace_mem s env a c ModbusPriority.RELAY)
  · exact fun s env a c =>
      hc _ (readInputRegisters_trace_mem s env a c ModbusPriority.RELAY)
  · exact fun s env a c => hc _ (readCoils_trace_mem s env a c)
  · exact fun s env a c => hc _ (readDiscreteInputs_trace_mem s env a c)
  · exact fun s env a v =>
      hc _ (writeSingleRegister_trace_mem s env a v ModbusPriority.RELAY)
  · exact fun s env a vs => hc _ (writeMultipleRegisters_trace_mem s env a vs)
  · exact fun s env a v =>
      hc _ (writeSingleCoil_trace_mem s env a v ModbusPriority.RELAY)
  · exact fun s env a vs => hc _ (writeMultipleCoils_trace_mem s env a vs)

/-- Early return of `readHoldingRegistersWithPriority` on an out-of-range
count: error, state untouched, no events. -/
theorem readHoldingRegisters_invalid (s : DeviceState) (env : TransEnv)
    (address count : Nat) (priority : ModbusPriority)
    (h : count = 0 ∨ count > MODBUS_MAX_REGISTER_COUNT) :
    readHoldingRegistersWithPriority s env address count priority =
      (Except.error ModbusError.INVALID_PARAMETER, s, []) := by
  simp only [readHoldingRegistersWithPriority]
  rw [if_pos h]

/-- Early return of `readHoldingRegistersWithPriority` on a bus-mutex
timeout: error, state untouched, only the failed acquisition recorded. -/
theorem readHoldingRegisters_mutexFail (s : DeviceState) (env : TransEnv)
    (address count : Nat) (priority : ModbusPriority)
    (h : ¬ (count = 0 ∨ count > MODBUS_MAX_REGISTER_COUNT))
    (hm : env.busMutexOk = false) :
    readHoldingRegistersWithPriority s env address count priority =
      (Except.error ModbusError.MUTEX_ERROR, s, [Event.acquire false]) := by
  simp only [readHoldingRegistersWithPriority]
  rw [if_neg h, if_pos hm]

/-- Past validation and mutex acquisition, `readHoldingRegistersWithPriority`
increments `totalRequests` by one exactly when the transport is configured. -/
theorem readHoldingRegisters_total (s : DeviceState) (env : TransEnv)
    (address count : Nat) (priority : ModbusPriority)
    (h : ¬ (count = 0 ∨ count > MODBUS_MAX_REGISTER_COUNT))
    (hm : env.busMutexOk = true) :
    (readHoldingRegistersWithPriority s env address count priority).2.1.totalRequests =
      s.totalRequests + (if env.rtuPresent = true then 1 else 0) := by
  simp only [readHoldingRegistersWithPriority]
  rw [if_neg h, if_neg (by simp [hm])]
  split
  · simp only [sendRequest_totalRequests, (ensureSyncReady_counters s env).1]
  · simp only [waitForResponse_totalRequests, sendRequest_totalRequests,
               (ensureSyncReady_counters s env).1]

/-- A count inside the limits passes validation: the run proceeds to the
bus-mutex acquisition as its first step. -/
theorem readHoldingRegisters_validPasses (s : DeviceState) (env : TransEnv)
    (address count : Nat) (priority : ModbusPriority)
    (h : ¬ (count = 0 ∨ count > MODBUS_MAX_REGISTER_COUNT)) :
    ∃ b t, traceOf (readHoldingRegistersWithPriority s env address count priority)
      = Event.acquire b :: t := by
  simp only [readHoldingRegistersWithPriority, traceOf]
  rw [if_neg h]
  split
  · exact ⟨false, [], rfl⟩
  · split
    · exact ⟨true, _, rfl⟩
    · exact ⟨true, _, rfl⟩

/-- Early return of `readInputRegistersWithPriority` on an out-of-range
count. -/
theorem readInputRegisters_invalid (s : DeviceState) (env : TransEnv)
    (address count : Nat) (priority : ModbusPriority)
    (h : count = 0 ∨ count > MODBUS_MAX_REGISTER_COUNT) :
    readInputRegistersWithPriority s env address count priority =
      (Except.error ModbusError.INVALID_PARAMETER, s, []) := by
  simp only [readInputRegistersWithPriority]
  rw [if_pos h]

/-- Early return of `readInputRegistersWithPriority` on a bus-mutex
timeout. -/
theorem readInputRegisters_mutexFail (s : DeviceState) (env : TransEnv)
    (address count : Nat) (priority : ModbusPriority)
    (h : ¬ (count = 0 ∨ count > MODBUS_MAX_REGISTER_COUNT))
    (hm : env.busMutexOk = false) :
    readInputRegistersWithPriority s env address count priority =
      (Except.error ModbusError.MUTEX_ERROR, s, [Event.acquire false]) := by
  simp only [readInputRegistersWithPriority]
  rw [if_neg h, if_pos hm]

/-- Counter behaviour of `readInputRegistersWithPriority` past validation. -/
theorem readInputRegisters_total (s : DeviceState) (env : TransEnv)
    (address count : Nat) (priority : ModbusPriority)
    (h : ¬ (count = 0 ∨ count > MODBUS_MAX_REGISTER_COUNT))
    (hm : env.busMutexOk = true) :
    (readInputRegistersWithPriority s env address count priority).2.1.totalRequests =
      s.totalRequests + (if env.rtuPresent = true then 1 else 0) := by
  simp only [readInputRegistersWithPriority]
  rw [if_neg h, if_neg (by simp [hm])]
  split
  · simp only [sendRequest_totalRequests, (ensureSyncReady_counters s env).1]
  · simp only [waitForResponse_totalRequests, sendRequest_totalRequests,
               (ensureSyncReady_counters s env).1]

/-- In-range counts pass validation for `readInputRegistersWithPriority`. -/
theorem readInputRegisters_validPasses (s : DeviceState) (env : TransEnv)
    (address count : Nat) (priority : ModbusPriority)
    (h : ¬ (count = 0 ∨ count > MODBUS_MAX_REGISTER_COUNT)) :
    ∃ b t, traceOf (readInputRegistersWithPriority s env address count priority)
      = Event.acquire b :: t := by
  simp only [readInputRegistersWithPriority, traceOf]
  rw [if_neg h]
  split
  · exact ⟨false, [], rfl⟩
  · split
    · exact ⟨true, _, rfl⟩
    · exact ⟨true, _, rfl⟩

/-- Early return of `writeSingleRegisterWithPriority` on a bus-mutex
timeout (this operation has no count validation). -/
theorem writeSingleRegister_mutexFail (s : DeviceState) (env : TransEnv)
    (address value : Nat) (priority : ModbusPriority)
    (hm : env.busMutexOk = false) :
    writeSingleRegisterWithPriority s env address value priority =
      (Except.error ModbusError.MUTEX_ERROR, s, [Event.acquire false]) := by
  simp only [writeSingleRegisterWithPriority]
  rw [if_pos hm]

/-- Counter behaviour of `writeSingleRegisterWithPriority`. -/
theorem writeSingleRegister_total (s : DeviceState) (env : TransEnv)
    (address value : Nat) (priority : ModbusPriority)
    (hm : env.busMutexOk = true) :
    (writeSingleRegisterWithPriority s env address value priority).2.1.totalRequests =
      s.totalRequests + (if env.rtuPresent = true then 1 else 0) := by
  simp only [writeSingleRegisterWithPriority]
  rw [if_neg (by simp [hm])]
  split
  · simp only [sendRequest_totalRequests, (ensureSyncReady_counters s env).1]
  · simp only [waitForResponse_totalRequests, sendRequest_totalRequests,
               (ensureSyncReady_counters s env).1]

/-- Early return of `writeMultipleRegisters` on an invalid value list. -/
theorem writeMultipleRegisters_invalid (s : DeviceState) (env : TransEnv)
    (address : Nat) (values : List Nat)
    (h : values = [] ∨ values.length > MODBUS_MAX_WRITE_REGISTER_COUNT) :
    writeMultipleRegisters s env address values =
      (Except.error ModbusError.INVALID_PARAMETER, s, []) := by
  simp only [writeMultipleRegisters]
  rw [if_pos h]

/-- Early return of `writeMultipleRegisters` on a bus-mutex timeout. -/
theorem writeMultipleRegisters_mutexFail (s : DeviceState) (env : TransEnv)
    (address : Nat) (values : List Nat)
    (h : ¬ (values = [] ∨ values.length > MODBUS_MAX_WRITE_REGISTER_COUNT))
    (hm : env.busMutexOk = false) :
    writeMultipleRegisters s env address values =
      (Except.error ModbusError.MUTEX_ERROR, s, [Event.acquire false]) := by
  simp only [writeMultipleRegisters]
  rw [if_neg h, if_pos hm]

/-- Counter behaviour of `writeMultipleRegisters` past validation. -/
theorem writeMultipleRegisters_total (s : DeviceState) (env : TransEnv)
    (address : Nat) (values : List Nat)
    (h : ¬ (values = [] ∨ values.length > MODBUS_MAX_WRITE_REGISTER_COUNT))
    (hm : env.busMutexOk = true) :
    (writeMultipleRegisters s env address values).2.1.totalRequests =
      s.totalRequests + (if env.rtuPresent = true then 1 else 0) := by
  simp only [writeMultipleRegisters, sendRequestInternal]
  rw [if_neg h, if_neg (by simp [hm])]
  split
  · simp only [sendRequest_totalRequests, (ensureSyncReady_counters s env).1]
  · simp only [waitForResponse_totalRequests, sendRequest_totalRequests,
               (ensureSyncReady_counters s env).1]

/-- Nonempty lists within the write limit pass validation for
`writeMultipleRegisters`. -/
theorem writeMultipleRegisters_validPasses (s : DeviceState) (env : TransEnv)
    (address : Nat) (values : List Nat)
    (h : ¬ (values = [] ∨ values.length > MODBUS_MAX_WRITE_REGISTER_COUNT)) :
    ∃ b t, traceOf (writeMultipleRegisters s env address values)
      = Event.acquire b :: t := by
  simp only [writeMultipleRegisters, traceOf]
  rw [if_neg h]
  split
  · exact ⟨false, [], rfl⟩
  · split
    · exact ⟨true, _, rfl⟩
    · exact ⟨true, _, rfl⟩

/-- Early return of `readCoils` on an out-of-range count. -/
theorem readCoils_invalid (s : DeviceState) (env : TransEnv)
    (address count : Nat)
    (h : count = 0 ∨ count > MODBUS_MAX_COIL_COUNT) :
    readCoils s env address count =
      (Except.error ModbusError.INVALID_PARAMETER, s, []) := by
  simp only [readCoils]
  rw [if_pos h]

/-- Early return of `readCoils` on a bus-mutex timeout. -/
theorem readCoils_mutexFail (s : DeviceState) (env : TransEnv)
    (address count : Nat)
    (h : ¬ (count = 0 ∨ count > MODBUS_MAX_COIL_COUNT))
    (hm : env.busMutexOk = false) :
    readCoils s env address count =
      (Except.error ModbusError.MUTEX_ERROR, s, [Event.acquire false]) := by
  simp only [readCoils]
  rw [if_neg h, if_pos hm]

/-- Counter behaviour of `readCoils` past validation. -/
theorem readCoils_total (s : DeviceState) (env : TransEnv)
    (address count : Nat)
    (h : ¬ (count = 0 ∨ count > MODBUS_MAX_COIL_COUNT))
    (hm : env.busMutexOk = true) :
    (readCoils s env address count).2.1.totalRequests =
      s.totalRequests + (if env.rtuPresent = true then 1 else 0) := by
  simp only [readCoils, sendRequestInternal]
  rw [if_neg h, if_neg (by simp [hm])]
  split
  · simp only [sendRequest_totalRequests, (ensureSyncReady_counters s env).1]
  · simp only [waitForResponse_totalRequests, sendRequest_totalRequests,
               (ensureSyncReady_counters s env).1]

/-- In-range counts pass validation for `readCoils`. -/
theorem readCoils_validPasses (s : DeviceState) (env : TransEnv)
    (address count : Nat)
    (h : ¬ (count = 0 ∨ count > MODBUS_MAX_COIL_COUNT)) :
    ∃ b t, traceOf (readCoils s env address count) = Event.acquire b :: t := by
  simp only [readCoils, traceOf]
  rw [if_neg h]
  split
  · exact ⟨false, [], rfl⟩
  · split
    · exact ⟨true, _, rfl⟩
    · exact ⟨true, _, rfl⟩

/-- Early return of `readDiscreteInputs` on an out-of-range count. -/
theorem readDiscreteInputs_invalid (s : DeviceState) (env : TransEnv)
    (address count : Nat)
    (h : count = 0 ∨ count > MODBUS_MAX_COIL_COUNT) :
    readDiscreteInputs s env address count =
      (Except.error ModbusError.INVALID_PARAMETER, s, []) := by
  simp only [readDiscreteInputs]
  rw [if_pos h]

/-- Early return of `readDiscreteInputs` on a bus-mutex timeout. -/
theorem readDiscreteInputs_mutexFail (s : DeviceState) (env : TransEnv)
    (address count : Nat)
    (h : ¬ (count = 0 ∨ count > MODBUS_MAX_COIL_COUNT))
    (hm : env.busMutexOk = false) :
    readDiscreteInputs s env address count =
      (Except.error ModbusError.MUTEX_ERROR, s, [Event.acquire false]) := by
  simp only [readDiscreteInputs]
  rw [if_neg h, if_pos hm]

/-- Counter behaviour of `readDiscreteInputs` past validation. -/
theorem readDiscreteInputs_total (s : DeviceState) (env : TransEnv)
    (address count : Nat)
    (h : ¬ (count = 0 ∨ count > MODBUS_MAX_COIL_COUNT))
    (hm : env.busMutexOk = true) :
    (readDiscreteInputs s env address count).2.1.totalRequests =
      s.totalRequests + (if env.rtuPresent = true then 1 else 0) := by
  simp only [readDiscreteInputs, sendRequestInternal]
  rw [if_neg h, if_neg (by simp [hm])]
  split
  · simp only [sendRequest_totalRequests, (ensureSyncReady_counters s env).1]
  · simp only [waitForResponse_totalRequests, sendRequest_totalRequests,
               (ensureSyncReady_counters s env).1]

/-- In-range counts pass validation for `readDiscreteInputs`. -/
theorem readDiscreteInputs_validPasses (s : DeviceState) (env : TransEnv)
    (address count : Nat)
    (h : ¬ (count = 0 ∨ count > MODBUS_MAX_COIL_COUNT)) :
    ∃ b t, traceOf (readDiscreteInputs s env address count)
      = Event.acquire b :: t := by
  simp only [readDiscreteInputs, traceOf]
  rw [if_neg h]
  split
  · exact ⟨false, [], rfl⟩
  · split
    · exact ⟨true, _, rfl⟩
    · exact ⟨true, _, rfl⟩

/-- Early return of `writeSingleCoilWithPriority` on a bus-mutex timeout
(this operation has no count validation). -/
theorem writeSingleCoil_mutexFail (s : DeviceState) (env : TransEnv)
    (address : Nat) (value : Bool) (priority : ModbusPriority)
    (hm : env.busMutexOk = false) :
    writeSingleCoilWithPriority s env address value priority =
      (Except.error ModbusError.MUTEX_ERROR, s, [Event.acquire false]) := by
  simp only [writeSingleCoilWithPriority]
  rw [if_pos hm]

/-- Counter behaviour of `writeSingleCoilWithPriority`. -/
theorem writeSingleCoil_total (s : DeviceState) (env : TransEnv)
    (address : Nat) (value : Bool) (priority : ModbusPriority)
    (hm : env.busMutexOk = true) :
    (writeSingleCoilWithPriority s env address value priority).2.1.totalRequests =
      s.totalRequests + (if env.rtuPresent = true then 1 else 0) := by
  simp only [writeSingleCoilWithPriority]
  rw [if_neg (by simp [hm])]
  generalize (if value then (1 : Nat) else 0) = w
  split
  · simp only [sendRequest_totalRequests, (ensureSyncReady_counters s env).1]
  · simp only [waitForResponse_totalRequests, sendRequest_totalRequests,
               (ensureSyncReady_counters s env).1]

/-- Early return of `writeMultipleCoils` on an invalid value list. -/
theorem writeMultipleCoils_invalid (s : DeviceState) (env : TransEnv)
    (address : Nat) (values : List Bool)
    (h : values = [] ∨ values.length > MODBUS_MAX_WRITE_COIL_COUNT) :
    writeMultipleCoils s env address values =
      (Except.error ModbusError.INVALID_PARAMETER, s, []) := by
  simp only [writeMultipleCoils]
  rw [if_pos h]

/-- Early return of `writeMultipleCoils` on a bus-mutex timeout. -/
theorem writeMultipleCoils_mutexFail (s : DeviceState) (env : TransEnv)
    (address : Nat) (values : List Bool)
    (h : ¬ (values = [] ∨ values.length > MODBUS_MAX_WRITE_COIL_COUNT))
    (hm : env.busMutexOk = false) :
    writeMultipleCoils s env address values =
      (Except.error ModbusError.MUTEX_ERROR, s, [Event.acquire false]) := by
  simp only [writeMultipleCoils]
  rw [if_neg h, if_pos hm]

/-- Counter behaviour of `writeMultipleCoils` past validation. -/
theorem writeMultipleCoils_total (s : DeviceState) (env : TransEnv)
    (address : Nat) (values : List Bool)
    (h : ¬ (values = [] ∨ values.length > MODBUS_MAX_WRITE_COIL_COUNT))
    (hm : env.busMutexOk = true) :
    (writeMultipleCoils s env address values).2.1.totalRequests =
      s.totalRequests + (if env.rtuPresent = true then 1 else 0) := by
  simp only [writeMultipleCoils, sendRequestInternal]
  rw [if_neg h, if_neg (by simp [hm])]
  split
  · simp only [sendRequest_totalRequests, (ensureSyncReady_counters s env).1]
  · simp only [waitForResponse_totalRequests, sendRequest_totalRequests,
               (ensureSyncReady_counters s env).1]

/-- Nonempty lists within the write limit pass validation for
`writeMultipleCoils`. -/
theorem writeMultipleCoils_validPasses (s : DeviceState) (env : TransEnv)
    (address : Nat) (values : List Bool)
    (h : ¬ (values = [] ∨ values.length > MODBUS_MAX_WRITE_COIL_COUNT)) :
    ∃ b t, traceOf (writeMultipleCoils s env address values)
      = Event.acquire b :: t := by
  simp only [writeMultipleCoils, traceOf]
  rw [if_neg h]
  split
  · exact ⟨false, [], rfl⟩
  · split
    · exact ⟨true, _, rfl⟩
    · exact ⟨true, _, rfl⟩

/-- C2: each bounded operation rejects an out-of-limit count with an
`INVALID_PARAMETER` error while leaving the device state untouched and
recording no events — in particular no bus-mutex acquisition and no
transport dispatch — whereas any count inside the limits passes this
validation and proceeds to the bus-mutex acquisition as the run's first
step. -/
theorem count_validation_fails_fast (s : DeviceState) (env : TransEnv)
    (address count : Nat) (rvalues : List Nat) (cvalues : List Bool) :
    ((count = 0 ∨ count > MODBUS_MAX_REGISTER_COUNT) →
      readHoldingRegisters s env address count =
        (Except.error ModbusError.INVALID_PARAMETER, s, []) ∧
      readInputRegisters s env address count =
        (Except.error ModbusError.INVALID_PARAMETER, s, [])) ∧
    (¬ (count = 0 ∨ count > MODBUS_MAX_REGISTER_COUNT) →
      (∃ b t, traceOf (readHoldingRegisters s env address count)
        = Event.acquire b :: t) ∧
      (∃ b t, traceOf (readInputRegisters s env address count)
        = Event.acquire b :: t)) ∧
    ((rvalues = [] ∨ rvalues.length > MODBUS_MAX_WRITE_REGISTER_COUNT) →
      writeMultipleRegisters s env address rvalues =
        (Except.error ModbusError.INVALID_PARAMETER, s, [])) ∧
    (¬ (rvalues = [] ∨ rvalues.length > MODBUS_MAX_WRITE_REGISTER_COUNT) →
      ∃ b t, traceOf (writeMultipleRegisters s env address rvalues)
        = Event.acquire b :: t) ∧
    ((count = 0 ∨ count > MODBUS_MAX_COIL_COUNT) →
      readCoils s env address count =
        (Except.error ModbusError.INVALID_PARAMETER, s, []) ∧
      readDiscreteInputs s env address count =
        (Except.error ModbusError.INVALID_PARAMETER, s, [])) ∧
    (¬ (count = 0 ∨ count > MODBUS_MAX_COIL_COUNT) →
      (∃ b t, traceOf (readCoils s env address count) = Event.acquire b :: t) ∧
      (∃ b t, traceOf (readDiscreteInputs s env address count)
        = Event.acquire b :: t)) ∧
    ((cvalues = [] ∨ cvalues.length > MODBUS_MAX_WRITE_COIL_COUNT) →
      writeMultipleCoils s env address cvalues =
        (Except.error ModbusError.INVALID_PARAMETER, s, [])) ∧
    (¬ (cvalues = [] ∨ cvalues.length > MODBUS_MAX_WRITE_COIL_COUNT) →
      ∃ b t, traceOf (writeMultipleCoils s env address cvalues)
        = Event.acquire b :: t) := by
  refine ⟨?_, ?_, ?_, ?_, ?_, ?_, ?_, ?_⟩
  · exact fun h =>
      ⟨readHoldingRegisters_invalid s env address count ModbusPriority.RELAY h,
       readInputRegisters_invalid s env address count ModbusPriority.RELAY h⟩
  · exact fun h =>
      ⟨readHoldingRegisters_validPasses s env address count ModbusPriority.RELAY h,
       readInputRegisters_validPasses s env address count ModbusPriority.RELAY h⟩
  · exact fun h => writeMultipleRegisters_invalid s env address rvalues h
  · exact fun h => writeMultipleRegisters_validPasses s env address rvalues h
  · exact fun h =>
      ⟨readCoils_invalid s env address count h,
       readDiscreteInputs_invalid s env address count h⟩
  · exact fun h =>
      ⟨readCoils_validPasses s env address count h,
       readDiscreteInputs_validPasses s env address count h⟩
  · exact fun h => writeMultipleCoils_invalid s env address cvalues h
  · exact fun h => writeMultipleCoils_validPasses s env address cvalues h

/-- Witness for `count_validation_fails_fast`: `writeMultipleCoils` with no
values and `readHoldingRegisters` with count 0 fail fast with no events,
while `readHoldingRegisters` with count 4 reaches the mutex acquisition. -/
theorem count_validation_fails_fast_witness :
    writeMultipleCoils (mkModbusDevice 1 1) envAllOk 0x0001 [] =
      (Except.error ModbusError.INVALID_PARAMETER, mkModbusDevice 1 1, []) ∧
    readHoldingRegisters (mkModbusDevice 1 1) envAllOk 0x0010 0 =
      (Except.error ModbusError.INVALID_PARAMETER, mkModbusDevice 1 1, []) ∧
    (∃ b t, traceOf (readHoldingRegisters (mkModbusDevice 1 1) envAllOk 0x0010 4)
      = Event.acquire b :: t) := by
  have h := count_validation_fails_fast (mkModbusDevice 1 1) envAllOk 0x0010 0
    [] []
  have h4 := count_validation_fails_fast (mkModbusDevice 1 1) envAllOk 0x0010 4
    [] []
  have hw := count_validation_fails_fast (mkModbusDevice 1 1) envAllOk 0x0001 0
    [] []
  exact ⟨hw.2.2.2.2.2.2.1 (Or.inl rfl),
         (h.1 (Or.inl rfl)).1,
         (h4.2.1 (by decide)).1⟩

/-- Counterexample to C3: `readHoldingRegisters` with count 0 (a parameter
validation failure) returns an error but leaves `totalRequests` at 0 —
not incremented by one — and leaves `lastError` at `SUCCESS` rather than
the returned `INVALID_PARAMETER`. -/
theorem request_counter_counterexample :
    (readHoldingRegisters (mkModbusDevice 1 1) envAllOk 0x0010 0).1 =
      Except.error ModbusError.INVALID_PARAMETER ∧
    (readHoldingRegisters (mkModbusDevice 1 1) envAllOk 0x0010 0).2.1.totalRequests
      = 0 ∧
    ¬ ((readHoldingRegisters (mkModbusDevice 1 1) envAllOk 0x0010 0).2.1.totalRequests
        = (mkModbusDevice 1 1).totalRequests + 1) ∧
    (readHoldingRegisters (mkModbusDevice 1 1) envAllOk 0x0010 0).2.1.lastError
      = ModbusError.SUCCESS :=
  ⟨rfl, rfl, by decide, rfl⟩

/-- On a configured transport, a non-OK dispatch result records
`COMMUNICATION_ERROR` in the device's last-error field. -/
theorem sendRequest_lastError_fail (s : DeviceState) (env : TransEnv)
    (fc addr count : Nat) (priority : ModbusPriority)
    (data : Option (List Nat))
    (hf : (sendRequestWithPriority s env fc addr count priority data).1 ≠ EspErr.ok) :
    (sendRequestWithPriority s env fc addr count priority data).2.1.lastError =
      (if env.rtuPresent = true then ModbusError.COMMUNICATION_ERROR else s.lastError) := by
  by_cases henv : env.rtuPresent = false
  · simp [sendRequestWithPriority, henv]
  · have h1 : env.rtuPresent = true := by
      cases hx : env.rtuPresent
      · exact absurd hx henv
      · rfl
    simp only [sendRequestWithPriority, if_neg henv] at hf ⊢
    rw [if_pos h1]
    by_cases hok : (sendStep env fc count data).1 = EspErr.ok
    · exact absurd hok hf
    · rw [if_neg hok]

/-- C3 (amended): `totalRequests` is incremented exactly one time by the
calls that reach the transport-dispatch helper with a configured transport;
calls failing parameter validation or bus-mutex acquisition return with the
device state completely untouched — in particular neither `totalRequests`
nor `lastError` changes; a failed dispatch on a configured transport sets
`lastError` to `COMMUNICATION_ERROR`, a wait timeout sets it to `TIMEOUT`
(and bumps `timeouts`), and a delivered error sets it to that error. -/
theorem request_counter_and_lastError (s : DeviceState) (env : TransEnv)
    (w : WaitOutcome) (ctx : SyncContext) (e : ModbusError)
    (fc address count value : Nat) (bvalue : Bool)
    (priority : ModbusPriority) (data : Option (List Nat))
    (rvalues : List Nat) (cvalues : List Bool) :
    ((sendRequestWithPriority s env fc address count priority data).2.1.totalRequests =
      s.totalRequests + (if env.rtuPresent = true then 1 else 0)) ∧
    (((sendRequestWithPriority s env fc address count priority data).1 ≠ EspErr.ok) →
      (sendRequestWithPriority s env fc address count priority data).2.1.lastError =
        (if env.rtuPresent = true then ModbusError.COMMUNICATION_ERROR
         else s.lastError)) ∧
    ((waitForResponse s w).2.1.totalRequests = s.totalRequests) ∧
    (s.syncContext = some ctx → ctx.semaphoreOk = true →
      (waitForResponse s WaitOutcome.timeout).1 =
        Except.error ModbusError.TIMEOUT ∧
      (waitForResponse s WaitOutcome.timeout).2.1.lastError =
        ModbusError.TIMEOUT ∧
      (waitForResponse s WaitOutcome.timeout).2.1.timeouts = s.timeouts + 1) ∧
    (s.syncContext = some ctx → ctx.semaphoreOk = true →
      (waitForResponse s (WaitOutcome.errored e)).1 = Except.error e ∧
      (waitForResponse s (WaitOutcome.errored e)).2.1.lastError = e) ∧
    ((count = 0 ∨ count > MODBUS_MAX_REGISTER_COUNT) →
      readHoldingRegisters s env address count =
        (Except.error ModbusError.INVALID_PARAMETER, s, []) ∧
      readInputRegisters s env address count =
        (Except.error ModbusError.INVALID_PARAMETER, s, [])) ∧
    ((rvalues = [] ∨ rvalues.length > MODBUS_MAX_WRITE_REGISTER_COUNT) →
      writeMultipleRegisters s env address rvalues =
        (Except.error ModbusError.INVALID_PARAMETER, s, [])) ∧
    ((count = 0 ∨ count > MODBUS_MAX_COIL_COUNT) →
      readCoils s env address count =
        (Except.error ModbusError.INVALID_PARAMETER, s, []) ∧
      readDiscreteInputs s env address count =
        (Except.error ModbusError.INVALID_PARAMETER, s, [])) ∧
    ((cvalues = [] ∨ cvalues.length > MODBUS_MAX_WRITE_COIL_COUNT) →
      writeMultipleCoils s env address cvalues =
        (Except.error ModbusError.INVALID_PARAMETER, s, [])) ∧
    (env.busMutexOk = false →
      (¬ (count = 0 ∨ count > MODBUS_MAX_REGISTER_COUNT) →
        readHoldingRegisters s env address count =
          (Except.error ModbusError.MUTEX_ERROR, s, [Event.acquire false]) ∧
        readInputRegisters s env address count =
          (Except.error ModbusError.MUTEX_ERROR, s, [Event.acquire false])) ∧
      (¬ (count = 0 ∨ count > MODBUS_MAX_COIL_COUNT) →
        readCoils s env address count =
          (Except.error ModbusError.MUTEX_ERROR, s, [Event.acquire false]) ∧
        readDiscreteInputs s env address count =
          (Except.error ModbusError.MUTEX_ERROR, s, [Event.acquire false])) ∧
      (¬ (rvalues = [] ∨ rvalues.length > MODBUS_MAX_WRITE_REGISTER_COUNT) →
        writeMultipleRegisters s env address rvalues =
          (Except.error ModbusError.MUTEX_ERROR, s, [Event.acquire false])) ∧
      (¬ (cvalues = [] ∨ cvalues.length > MODBUS_MAX_WRITE_COIL_COUNT) →
        writeMultipleCoils s env address cvalues =
          (Except.error ModbusError.MUTEX_ERROR, s, [Event.acquire false])) ∧
      writeSingleRegister s env address value =
        (Except.error ModbusError.MUTEX_ERROR, s, [Event.acquire false]) ∧
      writeSingleCoil s env address bvalue =
        (Except.error ModbusError.MUTEX_ERROR, s, [Event.acquire false])) ∧
    (env.busMutexOk = true →
      (¬ (count = 0 ∨ count > MODBUS_MAX_REGISTER_COUNT) →
        (readHoldingRegisters s env address count).2.1.totalRequests =
          s.totalRequests + (if env.rtuPresent = true then 1 else 0) ∧
        (readInputRegisters s env address count).2.1.totalRequests =
          s.totalRequests + (if env.rtuPresent = true then 1 else 0)) ∧
      (¬ (count = 0 ∨ count > MODBUS_MAX_COIL_COUNT) →
        (readCoils s env address count).2.1.totalRequests =
          s.totalRequests + (if env.rtuPresent = true then 1 else 0) ∧
        (readDiscreteInputs s env address count).2.1.totalRequests =
          s.totalRequests + (if env.rtuPresent = true then 1 else 0)) ∧
      (¬ (rvalues = [] ∨ rvalues.length > MODBUS_MAX_WRITE_REGISTER_COUNT) →
        (writeMultipleRegisters s env address rvalues).2.1.totalRequests =
          s.totalRequests + (if env.rtuPresent = true then 1 else 0)) ∧
      (¬ (cvalues = [] ∨ cvalues.length > MODBUS_MAX_WRITE_COIL_COUNT) →
        (writeMultipleCoils s env address cvalues).2.1.totalRequests =
          s.totalRequests + (if env.rtuPresent = true then 1 else 0)) ∧
      (writeSingleRegister s env address value).2.1.totalRequests =
        s.totalRequests + (if env.rtuPresent = true then 1 else 0) ∧
      (writeSingleCoil s env address bvalue).2.1.totalRequests =
        s.totalRequests + (if env.rtuPresent = true then 1 else 0)) := by
  refine ⟨sendRequest_totalRequests s env fc address count priority data,
          sendRequest_lastError_fail s env fc address count priority data,
          waitForResponse_totalRequests s w, ?_, ?_, ?_, ?_, ?_, ?_, ?_, ?_⟩
  · intro hctx hsem
    simp [waitForResponse, hctx, hsem]
  · intro hctx hsem
    simp [waitForResponse, hctx, hsem]
  · exact fun h =>
      ⟨readHoldingRegisters_invalid s env address count ModbusPriority.RELAY h,
       readInputRegisters_invalid s env address count ModbusPriority.RELAY h⟩
  · exact fun h => writeMultipleRegisters_invalid s env address rvalues h
  · exact fun h =>
      ⟨readCoils_invalid s env address count h,
       readDiscreteInputs_invalid s env address count h⟩
  · exact fun h => writeMultipleCoils_invalid s env address cvalues h
  · intro hm
    refine ⟨?_, ?_, ?_, ?_, ?_, ?_⟩
    · exact fun h =>
        ⟨readHoldingRegisters_mutexFail s env address count ModbusPriority.RELAY h hm,
         readInputRegisters_mutexFail s env address count ModbusPriority.RELAY h hm⟩
    · exact fun h =>
        ⟨readCoils_mutexFail s env address count h hm,
         readDiscreteInputs_mutexFail s env address count h hm⟩
    · exact fun h => writeMultipleRegisters_mutexFail s env address rvalues h hm
    · exact fun h => writeMultipleCoils_mutexFail s env address cvalues h hm
    · exact writeSingleRegister_mutexFail s env address value
        ModbusPriority.RELAY hm
    · exact writeSingleCoil_mutexFail s env address bvalue
        ModbusPriority.RELAY hm
  · intro hm
    refine ⟨?_, ?_, ?_, ?_, ?_, ?_⟩
    · exact fun h =>
        ⟨readHoldingRegisters_total s env address count ModbusPriority.RELAY h hm,
         readInputRegisters_total s env address count ModbusPriority.RELAY h hm⟩
    · exact fun h =>
        ⟨readCoils_total s env address count h hm,
         readDiscreteInputs_total s env address count h hm⟩
    · exact fun h => writeMultipleRegisters_total s env address rvalues h hm
    · exact fun h => writeMultipleCoils_total s env address cvalues h hm
    · exact writeSingleRegister_total s env address value ModbusPriority.RELAY hm
    · exact writeSingleCoil_total s env address bvalue ModbusPriority.RELAY hm

/-- Sync context with both result flags cleared, as left behind by the
flag-clearing step of `waitForResponse`. -/
def clearedCtx : SyncContext :=
  { responseData := [], responseReceived := false, errorOccurred := false,
    error := ModbusError.SUCCESS, semaphoreOk := true }

/-- Fresh device whose sync context has been created and cleared. -/
def waitingDevice : DeviceState :=
  { mkModbusDevice 1 1 with syncContext := some clearedCtx }

/-- Witness for `request_counter_and_lastError`: on a fresh device with a
fully working oracle, a valid `readHoldingRegisters(0x0010, 4)` whose wait
times out ends with one total request recorded; the timeout path of the
wait sets `lastError := TIMEOUT`; a validation failure leaves the state
untouched. -/
theorem request_counter_and_lastError_witness :
    (readHoldingRegisters (mkModbusDevice 1 1) envAllOk 0x0010 4).2.1.totalRequests
      = 1 ∧
    (waitForResponse waitingDevice WaitOutcome.timeout).2.1.lastError =
      ModbusError.TIMEOUT ∧
    readCoils (mkModbusDevice 1 1) envAllOk 0x0001 0 =
      (Except.error ModbusError.INVALID_PARAMETER, mkModbusDevice 1 1, []) := by
  have h := request_counter_and_lastError (mkModbusDevice 1 1) envAllOk
    WaitOutcome.timeout clearedCtx
    ModbusError.TIMEOUT 0x03 0x0010 4 0 false ModbusPriority.RELAY none [] []
  have hwait := request_counter_and_lastError waitingDevice
    envAllOk WaitOutcome.timeout clearedCtx
    ModbusError.TIMEOUT 0x03 0x0010 4 0 false ModbusPriority.RELAY none [] []
  have h0 := request_counter_and_lastError (mkModbusDevice 1 1) envAllOk
    WaitOutcome.timeout clearedCtx
    ModbusError.TIMEOUT 0x01 0x0001 0 0 false ModbusPriority.RELAY none [] []
  refine ⟨?_, ?_, ?_⟩
  · have h1 := (h.2.2.2.2.2.2.2.2.2.2 rfl).1 (by decide)
    simpa using h1.1
  · exact (hwait.2.2.2.1 rfl rfl).2.1
  · exact (h0.2.2.2.2.2.2.2.1 (Or.inl rfl)).1

/-- The register decode produces one 16-bit value per full 2-byte pair. -/
theorem decodeRegisters_length : ∀ data : List Nat,
    (decodeRegisters data).length = data.length / 2
  | [] => by simp [decodeRegisters]
  | [a] => by simp [decodeRegisters]
  | a :: b :: rest => by
      simp only [decodeRegisters, List.length_cons]
      rw [decodeRegisters_length rest]
      omega

/-- Closed form of the coil-decode loop: starting at index `i` it yields the
bit tests for the index range `[i, min remaining-budget bit-capacity)`. -/
theorem decodeCoilsGo_eq (data : List Nat) : ∀ remaining i,
    decodeCoilsGo data remaining i =
      (List.range' i (min remaining (8 * data.length - i))).map
        (fun j => ((data.getD (j / 8) 0 &&& (1 <<< (j % 8))) != 0))
  | 0, i => by simp [decodeCoilsGo]
  | remaining + 1, i => by
      by_cases h : i / 8 < data.length
      · have hi : i < 8 * data.length := by
          have hmul := (Nat.div_lt_iff_lt_mul (by norm_num : 0 < 8)).mp h
          omega
        have hmin : min (remaining + 1) (8 * data.length - i) =
            (min remaining (8 * data.length - (i + 1))) + 1 := by omega
        simp only [decodeCoilsGo, if_pos h]
        rw [decodeCoilsGo_eq data remaining (i + 1), hmin, List.range'_succ]
        rfl
      · have hi : ¬ i < 8 * data.length := by
          intro hc
          exact h ((Nat.div_lt_iff_lt_mul (by norm_num : 0 < 8)).mpr (by omega))
        have hmin : min (remaining + 1) (8 * data.length - i) = 0 := by omega
        simp [decodeCoilsGo, if_neg h, hmin]

/-- The coil decode unpacks, LSB-first within each byte, exactly
`min count (8 × payload length)` booleans in index order. -/
theorem decodeCoils_eq (count : Nat) (data : List Nat) :
    decodeCoils count data =
      (List.range (min count (8 * data.length))).map
        (fun j => ((data.getD (j / 8) 0 &&& (1 <<< (j % 8))) != 0)) := by
  rw [decodeCoils, decodeCoilsGo_eq, List.range_eq_range']
  simp

/-- Oracle delivering the eight-byte register payload of the C6 scenario. -/
def c6Env : TransEnv :=
  { envAllOk with waitOutcome :=
      WaitOutcome.response [0x00, 0x0A, 0x00, 0x14, 0x00, 0x1E, 0x00, 0x28] }

/-- C6: `readHoldingRegisters(0x0010, 4)` on a fresh device whose transport
delivers `{0x00,0x0A,0x00,0x14,0x00,0x1E,0x00,0x28}` returns the ok result
`{10,20,30,40}` with the successful-request counter incremented by one;
in general the register decode pairs consecutive bytes big-endian
(`256 * hi + lo` for byte values) in order, producing one value per full
pair, and the coil decode unpacks bits LSB-first within each byte,
returning exactly `min(count, 8 × payload length)` booleans. -/
theorem response_decoding (count : Nat) (data : List Nat) :
    ((readHoldingRegisters (mkModbusDevice 1 1) c6Env 0x0010 4).1 =
      Except.ok [10, 20, 30, 40] ∧
     (readHoldingRegisters (mkModbusDevice 1 1) c6Env 0x0010 4).2.1.successfulRequests =
      (mkModbusDevice 1 1).successfulRequests + 1) ∧
    (∀ a b rest, b < 256 →
      decodeRegisters (a :: b :: rest) = (256 * a + b) :: decodeRegisters rest) ∧
    ((decodeRegisters data).length = data.length / 2) ∧
    (decodeCoils count data =
      (List.range (min count (8 * data.length))).map
        (fun j => ((data.getD (j / 8) 0 &&& (1 <<< (j % 8))) != 0))) ∧
    ((decodeCoils count data).length = min count (8 * data.length)) := by
  refine ⟨⟨rfl, rfl⟩, ?_, decodeRegisters_length data, decodeCoils_eq count data, ?_⟩
  · intro a b rest hb
    have hlt : b < 2 ^ 8 := by norm_num; omega
    have hval := shiftLeft_lor_eq_of_lt a b 8 hlt
    simp only [decodeRegisters, hval]
    norm_num
  · rw [decodeCoils_eq]
    simp

/-- Witness for `response_decoding`: the big-endian pair rule applied to the
first pair of the scenario payload. -/
theorem response_decoding_witness :
    decodeRegisters [0x00, 0x0A, 0x00, 0x14] =
      10 :: decodeRegisters [0x00, 0x14] := by
  have h := (response_decoding 0 []).2.1 0x00 0x0A [0x00, 0x14] (by decide)
  simpa using h
